import Mathlib

/-!
Verification of the anaconda installer configuration modules against their
natural-language specification.

The development shallowly embeds the Python sources:

* `pyanaconda/modules/subscription/service_observer.py` — the
  `ServiceObserver` component, modelled as a labelled transition system whose
  atomic steps are exactly the lock-protected sections of the code.
* `pyanaconda/modules/network/firewall/firewall.py` — the `FirewallModule`
  property bag and its kickstart import/export.
* `pyanaconda/modules/users/users.py` — the user/group sentinel conversion.
* `updates/.../pyanaconda/modules/services/installation.py` —
  `ConfigureServicesTask` and `ConfigureSystemdDefaultTargetTask`.
* `pyanaconda/modules/subscription/installation.py` —
  `TransferSubscriptionTokensTask`.

External effects (systemd, the filesystem, the message bus) are represented by
explicit action traces and small environment records, so every definition is
executable.
-/

/-! ## ConfigureServicesTask (services/installation.py, lines 96-128) -/

/-- One call made by `ConfigureServicesTask.run` on the target system:
`util.disable_service(name, root=sysroot)` or
`util.enable_service(name, root=sysroot)`. -/
inductive ServiceAction
  | disableService (name : String)
  | enableService (name : String)
deriving DecidableEq

/-- The constructor arguments of `ConfigureServicesTask`. -/
structure ConfigureServicesTask where
  sysroot : String
  disabled_services : List String
  enabled_services : List String

/-- ConfigureServicesTask.run: the first loop disables every service of
`disabled_services`, the second loop enables every service of
`enabled_services`; the returned list is the exact sequence of calls. -/
def ConfigureServicesTask.run (t : ConfigureServicesTask) : List ServiceAction :=
  t.disabled_services.map ServiceAction.disableService
    ++ t.enabled_services.map ServiceAction.enableService

/-- Effect of one service action on the enabled-state of the target system,
keyed by service name: enabling sets the state to `true`, disabling to
`false`, later calls overwrite earlier ones. -/
def applyServiceAction (st : String → Bool) : ServiceAction → (String → Bool)
  | ServiceAction.disableService n => fun m => if m = n then false else st m
  | ServiceAction.enableService n => fun m => if m = n then true else st m

/-- Effect of a sequence of service actions, applied in order. -/
def applyServiceActions (acts : List ServiceAction) (st : String → Bool) : String → Bool :=
  acts.foldl applyServiceAction st

/-- Whether an action is a disablement. -/
def ServiceAction.isDisable : ServiceAction → Bool
  | ServiceAction.disableService _ => true
  | ServiceAction.enableService _ => false

/-- Whether an action is an enablement. -/
def ServiceAction.isEnable : ServiceAction → Bool
  | ServiceAction.disableService _ => false
  | ServiceAction.enableService _ => true

/-! ## ConfigureSystemdDefaultTargetTask (services/installation.py, lines 131-179) -/

/-- Modelled from the spec: `TEXT_ONLY_TARGET` lives in
`pyanaconda.core.constants`, which is not under src/; the spec and the task
docstring name the supported targets multi-user (text only) and graphical. -/
def TEXT_ONLY_TARGET : String := "multi-user.target"

/-- Modelled from the spec: `GRAPHICAL_TARGET` lives in
`pyanaconda.core.constants`, which is not under src/. -/
def GRAPHICAL_TARGET : String := "graphical.target"

/-- The class attribute SUPPORTED_SYSTEMD_TARGETS of the task. -/
def SUPPORTED_SYSTEMD_TARGETS : List String := [TEXT_ONLY_TARGET, GRAPHICAL_TARGET]

/-- The state of `ConfigureSystemdDefaultTargetTask` after `__init__`. -/
structure SystemdTargetTask where
  sysroot : String
  default_target : String
deriving DecidableEq

/-- ConfigureSystemdDefaultTargetTask.__init__: a falsy `default_target`
(`None`, modelled as `none`, or the empty string) is replaced by the text-only
target before it is stored. -/
def SystemdTargetTask.mk_task (sysroot : String) (default_target : Option String) :
    SystemdTargetTask :=
  { sysroot := sysroot
    default_target :=
      match default_target with
      | none => TEXT_ONLY_TARGET
      | some t => if t = "" then TEXT_ONLY_TARGET else t }

/-- The part of the target filesystem `ConfigureSystemdDefaultTargetTask.run`
inspects: whether `sysroot/etc/systemd/system` is a directory and whether
`sysroot/etc/systemd/system/default.target` is a symlink. -/
structure TargetFs where
  etcSystemdSystemIsDir : Bool
  defaultTargetIsLink : Bool
deriving DecidableEq

/-- A filesystem mutation performed by the task: `os.unlink` or `os.symlink`. -/
inductive FsAct
  | unlink (path : String)
  | symlink (src dst : String)
deriving DecidableEq

/-- The two sites at which the task raises
`SystemdDefaultTargetConfigurationError` (the Python class carries a formatted
message; the constructor records which check failed and the offending value). -/
inductive SystemdTargetErr
  | unsupportedTarget (target : String)
  | missingSystemdDirectory
deriving DecidableEq

/-- ConfigureSystemdDefaultTargetTask.run: returns the filesystem mutations
performed, in order, and the error raised, if any.  The unsupported-target
check comes first, then the directory check, then the unlink/symlink pair. -/
def SystemdTargetTask.run (t : SystemdTargetTask) (fs : TargetFs) :
    List FsAct × Option SystemdTargetErr :=
  if t.default_target ∉ SUPPORTED_SYSTEMD_TARGETS then
    ([], some (SystemdTargetErr.unsupportedTarget t.default_target))
  else if ¬ fs.etcSystemdSystemIsDir then
    ([], some SystemdTargetErr.missingSystemdDirectory)
  else
    let default_target_path := t.sysroot ++ "/etc/systemd/system/default.target"
    let selected_target_path := t.sysroot ++ "/etc/systemd/system/" ++ t.default_target
    ((if fs.defaultTargetIsLink then [FsAct.unlink default_target_path] else [])
      ++ [FsAct.symlink selected_target_path default_target_path], none)

/-! ## TransferSubscriptionTokensTask (subscription/installation.py, lines 142-275) -/

/-- RHSM repo file path constant of the task. -/
def RHSM_REPO_FILE_PATH : String := "/etc/yum.repos.d/redhat.repo"

/-- RHSM config file path constant of the task. -/
def RHSM_CONFIG_FILE_PATH : String := "/etc/rhsm/rhsm.conf"

/-- RHSM system purpose file path constant of the task. -/
def RHSM_SYSPURPOSE_FILE_PATH : String := "/etc/rhsm/syspurpose/syspurpose.json"

/-- RHSM entitlement keys directory constant of the task. -/
def RHSM_ENTITLEMENT_KEYS_PATH : String := "/etc/pki/entitlement"

/-- RHSM consumer key path constant of the task. -/
def RHSM_CONSUMER_KEY_PATH : String := "/etc/pki/consumer/key.pem"

/-- RHSM consumer cert path constant of the task. -/
def RHSM_CONSUMER_CERT_PATH : String := "/etc/pki/consumer/cert.pem"

/-- The constructor arguments of `TransferSubscriptionTokensTask`. -/
structure TransferSubscriptionTokensTask where
  sysroot : String
  transfer_subscription_tokens : Bool

/-- The part of the installation-environment filesystem the task inspects:
`os.path.exists` / `os.path.isfile` of each source path, `os.path.isdir` of the
entitlement directory and its `os.listdir` entries. -/
structure RhsmEnv where
  syspurposeExists : Bool
  syspurposeIsFile : Bool
  configIsFile : Bool
  consumerKeyIsFile : Bool
  consumerCertIsFile : Bool
  entitlementDirIsDir : Bool
  entitlementEntries : List String
  repoIsFile : Bool
deriving DecidableEq

/-- One `shutil.copy` call performed by the task. -/
inductive CopyOp
  | file (src dst : String)
deriving DecidableEq

/-- The `SubscriptionTokenTransferError` exception with its message. -/
structure SubscriptionTokenTransferError where
  msg : String
deriving DecidableEq

/-- TransferSubscriptionTokensTask._copy_file_to_path: returns False without
copying when the source is not a file, and True after copying it otherwise
(directory creation is an incidental side effect and is not tracked). -/
def copy_file_to_path (isFile : Bool) (src dst : String) : Bool × List CopyOp :=
  if isFile then (true, [CopyOp.file src dst]) else (false, [])

/-- TransferSubscriptionTokensTask._copy_pem_files with the default
`not_empty=True`: False when the input folder is not a directory or has no
entries; otherwise every `*.pem` entry is copied into the output folder and
the call returns True. -/
def copy_pem_files (isDir : Bool) (entries : List String) (inputFolder outputFolder : String) :
    Bool × List CopyOp :=
  if ¬ isDir then (false, [])
  else if entries.isEmpty then (false, [])
  else
    (true,
      (entries.filter (fun e => e.endsWith ".pem")).map
        (fun e => CopyOp.file (inputFolder ++ "/" ++ e) outputFolder))

/-- TransferSubscriptionTokensTask._transfer_system_purpose: copies the
syspurpose file when it exists; the helper's return value is ignored, so a
missing or non-file source is never an error. -/
def TransferSubscriptionTokensTask.transfer_system_purpose
    (t : TransferSubscriptionTokensTask) (env : RhsmEnv) : List CopyOp :=
  if env.syspurposeExists then
    (copy_file_to_path env.syspurposeIsFile RHSM_SYSPURPOSE_FILE_PATH
      (t.sysroot ++ RHSM_SYSPURPOSE_FILE_PATH)).2
  else []

/-- TransferSubscriptionTokensTask._transfer_rhsm_config_file. -/
def TransferSubscriptionTokensTask.transfer_rhsm_config_file
    (t : TransferSubscriptionTokensTask) (env : RhsmEnv) :
    Except SubscriptionTokenTransferError (List CopyOp) :=
  let r := copy_file_to_path env.configIsFile RHSM_CONFIG_FILE_PATH
    (t.sysroot ++ RHSM_CONFIG_FILE_PATH)
  if r.1 then Except.ok r.2
  else Except.error ⟨"RHSM config file (" ++ RHSM_CONFIG_FILE_PATH ++ ") is missing."⟩

/-- TransferSubscriptionTokensTask._transfer_consumer_key. -/
def TransferSubscriptionTokensTask.transfer_consumer_key
    (t : TransferSubscriptionTokensTask) (env : RhsmEnv) :
    Except SubscriptionTokenTransferError (List CopyOp) :=
  let r := copy_file_to_path env.consumerKeyIsFile RHSM_CONSUMER_KEY_PATH
    (t.sysroot ++ RHSM_CONSUMER_KEY_PATH)
  if r.1 then Except.ok r.2
  else Except.error ⟨"RHSM consumer key (" ++ RHSM_CONSUMER_KEY_PATH ++ ") is missing."⟩

/-- TransferSubscriptionTokensTask._transfer_consumer_cert. -/
def TransferSubscriptionTokensTask.transfer_consumer_cert
    (t : TransferSubscriptionTokensTask) (env : RhsmEnv) :
    Except SubscriptionTokenTransferError (List CopyOp) :=
  let r := copy_file_to_path env.consumerCertIsFile RHSM_CONSUMER_CERT_PATH
    (t.sysroot ++ RHSM_CONSUMER_CERT_PATH)
  if r.1 then Except.ok r.2
  else Except.error
    ⟨"RHSM consumer certificate (" ++ RHSM_CONSUMER_CERT_PATH ++ ") is missing."⟩

/-- TransferSubscriptionTokensTask._transfer_entitlement_keys. -/
def TransferSubscriptionTokensTask.transfer_entitlement_keys
    (t : TransferSubscriptionTokensTask) (env : RhsmEnv) :
    Except SubscriptionTokenTransferError (List CopyOp) :=
  let r := copy_pem_files env.entitlementDirIsDir env.entitlementEntries
    RHSM_ENTITLEMENT_KEYS_PATH (t.sysroot ++ RHSM_ENTITLEMENT_KEYS_PATH)
  if r.1 then Except.ok r.2
  else Except.error
    ⟨"RHSM entitlement keys (from " ++ RHSM_ENTITLEMENT_KEYS_PATH ++ ") are missing."⟩

/-- TransferSubscriptionTokensTask._transfer_repo_file (the source message has
no final period). -/
def TransferSubscriptionTokensTask.transfer_repo_file
    (t : TransferSubscriptionTokensTask) (env : RhsmEnv) :
    Except SubscriptionTokenTransferError (List CopyOp) :=
  let r := copy_file_to_path env.repoIsFile RHSM_REPO_FILE_PATH
    (t.sysroot ++ RHSM_REPO_FILE_PATH)
  if r.1 then Except.ok r.2
  else Except.error ⟨"RHSM generated repo file (" ++ RHSM_REPO_FILE_PATH ++ ") is missing"⟩

/-- TransferSubscriptionTokensTask.run: the system-purpose transfer always
happens first; when `transfer_subscription_tokens` is False the task returns
right after it; otherwise the five credential steps run in their fixed order
and the first raised `SubscriptionTokenTransferError` aborts the remainder.
The result is the list of copies performed and the error raised, if any. -/
def TransferSubscriptionTokensTask.run (t : TransferSubscriptionTokensTask) (env : RhsmEnv) :
    List CopyOp × Option SubscriptionTokenTransferError :=
  let sysOps := t.transfer_system_purpose env
  if ¬ t.transfer_subscription_tokens then (sysOps, none)
  else
    match t.transfer_rhsm_config_file env with
    | Except.error e => (sysOps, some e)
    | Except.ok ops1 =>
      match t.transfer_consumer_key env with
      | Except.error e => (sysOps ++ ops1, some e)
      | Except.ok ops2 =>
        match t.transfer_consumer_cert env with
        | Except.error e => (sysOps ++ ops1 ++ ops2, some e)
        | Except.ok ops3 =>
          match t.transfer_entitlement_keys env with
          | Except.error e => (sysOps ++ ops1 ++ ops2 ++ ops3, some e)
          | Except.ok ops4 =>
            match t.transfer_repo_file env with
            | Except.error e => (sysOps ++ ops1 ++ ops2 ++ ops3 ++ ops4, some e)
            | Except.ok ops5 => (sysOps ++ ops1 ++ ops2 ++ ops3 ++ ops4 ++ ops5, none)

/-- The copies `_transfer_entitlement_keys` performs when it succeeds. -/
def entitlementPemCopies (t : TransferSubscriptionTokensTask) (env : RhsmEnv) : List CopyOp :=
  (env.entitlementEntries.filter (fun e => e.endsWith ".pem")).map
    (fun e => CopyOp.file (RHSM_ENTITLEMENT_KEYS_PATH ++ "/" ++ e)
      (t.sysroot ++ RHSM_ENTITLEMENT_KEYS_PATH))

/-! ## FirewallModule (network/firewall/firewall.py)

The module is a Python object: its class defines property getters and setter
methods, and its instance dictionary holds the underscore-prefixed property
fields.  `process_kickstart` (lines 62-70) contains plain assignments
`self.set_use_system_defaults = data.use_system_defaults` (and likewise for
the other five fields): in Python these do not call the setter methods, they
create instance attributes that shadow them.  The embedding therefore keeps,
next to the property fields, one `Option` per shadowed setter name.  Change
signals are external bus side effects and are not tracked. -/

/-- A Python runtime error relevant to the embedded modules. -/
inductive PyErr
  | nameError (name : String)
  | attributeError (name : String)
deriving DecidableEq

/-- The instance state of `FirewallModule`: the seven property fields set by
`__init__` plus the attributes that `process_kickstart` creates over the
setter names. -/
structure FirewallModule where
  _firewall_seen : Bool
  _firewall_enabled : Bool
  _enabled_ports : List String
  _trusts : List String
  _enabled_services : List String
  _disabled_services : List String
  _use_system_defaults : Bool
  shadow_set_use_system_defaults : Option Bool
  shadow_set_firewall_enabled : Option Bool
  shadow_set_enabled_ports : Option (List String)
  shadow_set_trusts : Option (List String)
  shadow_set_enabled_services : Option (List String)
  shadow_set_disabled_services : Option (List String)
deriving DecidableEq

/-- FirewallModule.__init__: the default property values; no shadow attribute
exists on a fresh instance. -/
def freshFirewallModule : FirewallModule :=
  { _firewall_seen := false
    _firewall_enabled := true
    _enabled_ports := []
    _trusts := []
    _enabled_services := []
    _disabled_services := []
    _use_system_defaults := false
    shadow_set_use_system_defaults := none
    shadow_set_firewall_enabled := none
    shadow_set_enabled_ports := none
    shadow_set_trusts := none
    shadow_set_enabled_services := none
    shadow_set_disabled_services := none }

/-- FirewallModule.set_firewall_seen (the signal emission is not tracked). -/
def FirewallModule.set_firewall_seen (m : FirewallModule) (v : Bool) : FirewallModule :=
  { m with _firewall_seen := v }

/-- FirewallModule.set_use_system_defaults. -/
def FirewallModule.set_use_system_defaults (m : FirewallModule) (v : Bool) : FirewallModule :=
  { m with _use_system_defaults := v }

/-- FirewallModule.set_firewall_enabled. -/
def FirewallModule.set_firewall_enabled (m : FirewallModule) (v : Bool) : FirewallModule :=
  { m with _firewall_enabled := v }

/-- FirewallModule.set_enabled_ports. -/
def FirewallModule.set_enabled_ports (m : FirewallModule) (v : List String) : FirewallModule :=
  { m with _enabled_ports := v }

/-- FirewallModule.set_trusts. -/
def FirewallModule.set_trusts (m : FirewallModule) (v : List String) : FirewallModule :=
  { m with _trusts := v }

/-- FirewallModule.set_enabled_services. -/
def FirewallModule.set_enabled_services (m : FirewallModule) (v : List String) : FirewallModule :=
  { m with _enabled_services := v }

/-- FirewallModule.set_disabled_services. -/
def FirewallModule.set_disabled_services (m : FirewallModule) (v : List String) : FirewallModule :=
  { m with _disabled_services := v }

/-- The kickstart firewall command record handed to `process_kickstart` and
`setup_kickstart` (field names as the code reads them). -/
structure FirewallData where
  use_system_defaults : Bool
  enabled : Bool
  ports : List String
  trusts : List String
  services : List String
  remove_services : List String
deriving DecidableEq

/-- FirewallModule.process_kickstart, line by line.  The first statement calls
`self.set_firewall_seen(self.seen)`; no class in `firewall.py` defines an
attribute `seen`, and its base class `KickstartBaseModule` is not under src/,
so the outcome of the lookup `self.seen` is passed in as `selfSeen` (`Except.error`
for an AttributeError, `Except.ok b` if some base class supplied a value).  The
remaining six statements assign `data` fields to the attribute names
`set_use_system_defaults` ... `set_disabled_services`, shadowing the setter
methods; no property field other than `_firewall_seen` is written. -/
def FirewallModule.process_kickstart (m : FirewallModule) (selfSeen : Except PyErr Bool)
    (data : FirewallData) : Except PyErr FirewallModule :=
  match selfSeen with
  | Except.error e => Except.error e
  | Except.ok b =>
    Except.ok
      { m.set_firewall_seen b with
        shadow_set_use_system_defaults := some data.use_system_defaults
        shadow_set_firewall_enabled := some data.enabled
        shadow_set_enabled_ports := some data.ports
        shadow_set_trusts := some data.trusts
        shadow_set_enabled_services := some data.services
        shadow_set_disabled_services := some data.remove_services }

/-- FirewallModule.setup_kickstart: writes the current property values (read
through the class property getters, which the shadow attributes do not
affect) into the kickstart record and returns it. -/
def FirewallModule.setup_kickstart (m : FirewallModule) (data : FirewallData) : FirewallData :=
  { data with
    use_system_defaults := m._use_system_defaults
    enabled := m._firewall_enabled
    ports := m._enabled_ports
    trusts := m._trusts
    services := m._enabled_services
    remove_services := m._disabled_services }

/-- The property set of a firewall module: the seven property fields, which is
what the round-trip claim compares. -/
def FirewallModule.props (m : FirewallModule) :
    Bool × Bool × List String × List String × List String × List String × Bool :=
  (m._firewall_seen, m._firewall_enabled, m._enabled_ports, m._trusts,
    m._enabled_services, m._disabled_services, m._use_system_defaults)

/-! ## Users module sentinel conversion (users/users.py)

`UserData` is the DBus structure of `modules/common/structures/user.py` (under
src/, with its `__init__` defaults); `UserKickstartData` is pykickstart user
command data, whose unset integer fields are `None` (`Option.none` here).
`GroupData` is the DBus group structure; its module is not under src/, so its
gid default follows the spec sentinel convention (-1), and it is given an
`Option Int` carrier because `generate_kickstart` line 182 assigns the Python
`None` into it. -/

/-- The UserData DBus structure with its `__init__` defaults. -/
structure UserData where
  name : String := ""
  uid : Int := -1
  groups : List String := []
  gid : Int := -1
  homedir : String := ""
  password : String := ""
  is_crypted : Bool := true
  lock : Bool := false
  shell : String := ""
  gecos : String := ""
deriving DecidableEq

/-- The pykickstart user command data fields read and written by the users
module; an absent integer field is `none`. -/
structure UserKickstartData where
  name : String := ""
  groups : List String := []
  uid : Option Int := none
  gid : Option Int := none
  homedir : String := ""
  password : String := ""
  isCrypted : Bool := false
  lock : Bool := false
  shell : String := ""
  gecos : String := ""
deriving DecidableEq

/-- apply_ksdata_to_user_data (users.py lines 39-66): kickstart `None` for uid
or gid becomes the sentinel -1; every other field is copied verbatim. -/
def apply_ksdata_to_user_data (user_data : UserData) (user_ksdata : UserKickstartData) :
    UserData :=
  { user_data with
    name := user_ksdata.name
    groups := user_ksdata.groups
    uid := match user_ksdata.uid with
      | none => -1
      | some u => u
    gid := match user_ksdata.gid with
      | none => -1
      | some g => g
    homedir := user_ksdata.homedir
    password := user_ksdata.password
    is_crypted := user_ksdata.isCrypted
    lock := user_ksdata.lock
    shell := user_ksdata.shell
    gecos := user_ksdata.gecos }

/-- user_data_to_ksdata (users.py lines 68-95): the sentinel -1 becomes an
absent (`none`) kickstart field; every other field is copied verbatim. -/
def user_data_to_ksdata (user_data : UserData) : UserKickstartData :=
  { name := user_data.name
    groups := user_data.groups
    uid := if user_data.uid = -1 then none else some user_data.uid
    gid := if user_data.gid = -1 then none else some user_data.gid
    homedir := user_data.homedir
    password := user_data.password
    isCrypted := user_data.is_crypted
    lock := user_data.lock
    shell := user_data.shell
    gecos := user_data.gecos }

/-- The GroupData DBus structure.  Its defining module is not under src/;
modelled from the spec sentinel convention, gid defaults to -1.  The carrier
is `Option Int` so that the Python `None` that `generate_kickstart` line 182
stores into the field can be represented (`none`). -/
structure GroupData where
  name : String := ""
  gid : Option Int := some (-1)
deriving DecidableEq

/-- The pykickstart group command data; gid is `None` when absent. -/
structure GroupKickstartData where
  name : String := ""
  gid : Option Int := none
deriving DecidableEq

/-- One iteration of the group-import loop of `UsersModule.process_kickstart`
(users.py lines 147-154).  The loop variable is `group_ksdata`, but the first
statement of the body reads `ksdata.name`: the name `ksdata` is bound nowhere
in `process_kickstart`, so CPython raises `NameError` before any field of the
fresh `group_data` is written (were that fixed, line 153 still reads
`ksdata.gid` on the non-None branch). -/
def process_group_ksdata (_group_ksdata : GroupKickstartData) (_group_data : GroupData) :
    Except PyErr GroupData :=
  Except.error (PyErr.nameError "ksdata")

/-- The group-import loop of `UsersModule.process_kickstart`: each group of the
kickstart list is handed to `process_group_ksdata`; an exception propagates
out, aborting the rest of the loop. -/
def process_kickstart_groups : List GroupKickstartData → List GroupData →
    Except PyErr (List GroupData)
  | [], acc => Except.ok acc
  | k :: rest, acc =>
    match process_group_ksdata k {} with
    | Except.error e => Except.error e
    | Except.ok g => process_kickstart_groups rest (acc ++ [g])

/-- One iteration of the group-export loop of `UsersModule.generate_kickstart`
(users.py lines 178-185): a fresh `GroupKickstartData` gets the group name;
when the stored gid is the sentinel -1 the code assigns
`group_data.gid = None` — mutating the property model instead of the kickstart
record, whose gid is left at its default `None` — and otherwise it assigns
`group_ksdata.gid = group_data.gid`.  The result is the kickstart record
appended to the output together with the (possibly mutated) group data. -/
def generate_group_ksdata (group_data : GroupData) : GroupKickstartData × GroupData :=
  let group_ksdata : GroupKickstartData := { name := group_data.name }
  if group_data.gid = some (-1) then
    (group_ksdata, { group_data with gid := none })
  else
    ({ group_ksdata with gid := group_data.gid }, group_data)

/-! ## ServiceObserver (subscription/service_observer.py)

The observer is embedded as a labelled transition system.  Each label is one
atomic section of the code — atomic because it runs with `self._proxy_lock`
held (the `join()` call sits between the two locked sections of `get_proxy`
and is represented by the enabledness condition of the caller's second step):

* `enter i` — caller `i` runs the first locked section of `get_proxy`
  (lines 67-84): return the proxy if set; otherwise, if no timer exists,
  call `util.start_service`, create and start the timer and connect
  `_service_activated` to the `service_available` signal.
* `expire` — the started `threading.Timer` runs to the end of its interval
  (it was neither cancelled nor already run) and calls `_service_timed_out`,
  which only logs; the timer thread then terminates.
* `activate` — the underlying DBus service appears on the bus (this happens
  at most once per bus name) and, the callback being connected,
  `_service_activated` runs: it cancels the timer and stores the proxy the
  message bus returns for the service name and object path.
* `check i` — caller `i` returns from `self._timer.join()` (possible exactly
  when the timer thread has terminated: its interval elapsed or it was
  cancelled) and runs the second locked section (lines 90-97): return the
  proxy if set, else raise `DBusObserverError`.

A Python proxy object is truthy, so `if self._proxy:` tests exactly the
`Option` here; the proxy value an activation stores is the observer's fixed
`busProxy` (the message bus is queried with the same two arguments). -/

/-- The identity of a ServiceObserver: its DBus service name, systemd unit
name, and the proxy object (numbered abstractly) its message bus returns. -/
structure ObsConfig where
  dbus_service_name : String
  systemd_unit_name : String
  busProxy : Nat
deriving DecidableEq

/-- The outcome of one `get_proxy()` call. -/
inductive ObsCallResult
  | gotProxy (p : Nat)
  | unavailable (msg : String)
deriving DecidableEq

/-- Where one caller of `get_proxy()` stands. -/
inductive ObsCallerPhase
  | idle
  | waiting
  | done (r : ObsCallResult)
deriving DecidableEq

/-- The shared state of the observer plus the phase of each caller. -/
structure ObsState where
  proxy : Option Nat
  timerExists : Bool
  timerExpired : Bool
  timerCancelled : Bool
  connected : Bool
  activated : Bool
  startCount : Nat
  callers : List ObsCallerPhase
deriving DecidableEq

/-- The timer thread has terminated (its interval elapsed or it was
cancelled), so `join()` returns. -/
def ObsState.timerFinished (s : ObsState) : Bool :=
  s.timerExpired || s.timerCancelled

/-- The message of the `DBusObserverError` raised by `get_proxy` (line 96):
DBus service NAME with unit UNIT failed to start. -/
def obsErrMsg (cfg : ObsConfig) : String :=
  "DBus service " ++ (cfg.dbus_service_name ++ (" with unit "
    ++ (cfg.systemd_unit_name ++ " failed to start.")))

/-- A string decomposes around the given substring. -/
def strContains (s sub : String) : Prop :=
  ∃ a b, s = a ++ sub ++ b

/-- A fresh observer with `n` prospective callers: `__init__` leaves proxy and
timer as None and has not started anything. -/
def obsInit (n : Nat) : ObsState :=
  { proxy := none
    timerExists := false
    timerExpired := false
    timerCancelled := false
    connected := false
    activated := false
    startCount := 0
    callers := List.replicate n ObsCallerPhase.idle }

/-- The labels of the transition system. -/
inductive ObsLabel
  | enter (i : Nat)
  | expire
  | activate
  | check (i : Nat)
deriving DecidableEq

/-- Replace the phase of caller `i`. -/
def ObsState.setCaller (s : ObsState) (i : Nat) (c : ObsCallerPhase) : ObsState :=
  { s with callers := s.callers.set i c }

/-- One atomic step of the system; `none` when the label is not enabled. -/
def obsStep (cfg : ObsConfig) (s : ObsState) : ObsLabel → Option ObsState
  | ObsLabel.enter i =>
    match s.callers.get? i with
    | some ObsCallerPhase.idle =>
      match s.proxy with
      | some p => some (s.setCaller i (ObsCallerPhase.done (ObsCallResult.gotProxy p)))
      | none =>
        if s.timerExists then
          some (s.setCaller i ObsCallerPhase.waiting)
        else
          some { s.setCaller i ObsCallerPhase.waiting with
                  timerExists := true
                  connected := true
                  startCount := s.startCount + 1 }
    | _ => none
  | ObsLabel.expire =>
    if s.timerExists && !s.timerCancelled && !s.timerExpired then
      some { s with timerExpired := true }
    else none
  | ObsLabel.activate =>
    if s.connected && !s.activated then
      some { s with activated := true, timerCancelled := true, proxy := some cfg.busProxy }
    else none
  | ObsLabel.check i =>
    match s.callers.get? i with
    | some ObsCallerPhase.waiting =>
      if s.timerFinished then
        match s.proxy with
        | some p => some (s.setCaller i (ObsCallerPhase.done (ObsCallResult.gotProxy p)))
        | none => some (s.setCaller i
            (ObsCallerPhase.done (ObsCallResult.unavailable (obsErrMsg cfg))))
      else none
    | _ => none

/-- Run a sequence of labels from a state; `none` as soon as one is not
enabled. -/
def obsRun (cfg : ObsConfig) (s : ObsState) : List ObsLabel → Option ObsState
  | [] => some s
  | l :: rest =>
    match obsStep cfg s l with
    | some s1 => obsRun cfg s1 rest
    | none => none

/-- The list of states a run passes through (the start state included). -/
def obsTraj (cfg : ObsConfig) (s : ObsState) : List ObsLabel → Option (List ObsState)
  | [] => some [s]
  | l :: rest =>
    match obsStep cfg s l with
    | some s1 => (obsTraj cfg s1 rest).map (fun states => s :: states)
    | none => none

/-- How many adjacent transitions of a state list take the proxy from unset to
set. -/
def countProxySets : List ObsState → Nat
  | [] => 0
  | [_] => 0
  | a :: b :: rest =>
    (if a.proxy.isNone && b.proxy.isSome then 1 else 0) + countProxySets (b :: rest)

/-- Adjacent monotonicity of proxy-someness along a state list. -/
def proxyMono : List ObsState → Prop
  | [] => True
  | [_] => True
  | a :: b :: rest => (a.proxy.isSome = true → b.proxy.isSome = true) ∧ proxyMono (b :: rest)

/-- The inductive invariant of the observer used by the claim proofs:
the caller list keeps its length; the service-start command ran exactly when
the timer exists; a connected callback, an expired timer, a cancelled timer
or a set proxy all imply the timer exists (cancellation comes only from
`_service_activated`); and a caller that has moved past `idle` implies the
timer exists. -/
def ObsInv (n : Nat) (s : ObsState) : Prop :=
  s.callers.length = n ∧
  s.startCount = (if s.timerExists then 1 else 0) ∧
  (s.connected = true → s.timerExists = true) ∧
  (s.activated = true → s.connected = true) ∧
  (s.timerExpired = true → s.timerExists = true) ∧
  (s.timerCancelled = true → s.activated = true) ∧
  (s.proxy ≠ none → s.activated = true) ∧
  (∀ c ∈ s.callers, c ≠ ObsCallerPhase.idle → s.timerExists = true)

/-- State predicate: the service has not yet become available and the timer
has neither expired nor been cancelled — every caller is still idle or
waiting and no proxy is stored. -/
def ObsPreActivation (s : ObsState) : Prop :=
  s.timerExpired = false ∧ s.timerCancelled = false ∧ s.activated = false ∧
  s.proxy = none ∧ ∀ c ∈ s.callers, c = ObsCallerPhase.idle ∨ c = ObsCallerPhase.waiting

/-- State predicate: the service never became available — no proxy is stored
and every completed call raised the `DBusObserverError`. -/
def ObsNoActivation (cfg : ObsConfig) (s : ObsState) : Prop :=
  s.activated = false ∧ s.proxy = none ∧
  ∀ r, ObsCallerPhase.done r ∈ s.callers → r = ObsCallResult.unavailable (obsErrMsg cfg)

/-- State predicate: the activation callback has stored the proxy — it stays
stored, the timer stays cancelled, and every completed call returned exactly
that proxy. -/
def ObsPostActivation (cfg : ObsConfig) (s : ObsState) : Prop :=
  s.proxy = some cfg.busProxy ∧ s.timerCancelled = true ∧
  ∀ r, ObsCallerPhase.done r ∈ s.callers → r = ObsCallResult.gotProxy cfg.busProxy

/-! ## Theorems: ConfigureServicesTask (claim C7) -/

theorem applyServiceActions_append (A B : List ServiceAction) (st : String → Bool) :
    applyServiceActions (A ++ B) st = applyServiceActions B (applyServiceActions A st) := by
  simp [applyServiceActions, List.foldl_append]

theorem applyServiceActions_enable_not_mem (names : List String) (st : String → Bool)
    (n : String) (h : n ∉ names) :
    applyServiceActions (names.map ServiceAction.enableService) st n = st n := by
  induction names generalizing st with
  | nil => rfl
  | cons a rest ih =>
    have hna : n ≠ a := fun he => h (he ▸ List.mem_cons_self a rest)
    have hnr : n ∉ rest := fun hr => h (List.mem_cons_of_mem a hr)
    show applyServiceActions (rest.map ServiceAction.enableService)
      (applyServiceAction st (ServiceAction.enableService a)) n = st n
    rw [ih _ hnr]
    simp [applyServiceAction, hna]

theorem applyServiceActions_enable_mem (names : List String) (st : String → Bool)
    (n : String) (h : n ∈ names) :
    applyServiceActions (names.map ServiceAction.enableService) st n = true := by
  induction names generalizing st with
  | nil => cases h
  | cons a rest ih =>
    show applyServiceActions (rest.map ServiceAction.enableService)
      (applyServiceAction st (ServiceAction.enableService a)) n = true
    by_cases hr : n ∈ rest
    · exact ih _ hr
    · have hna : n = a := by
        rcases List.mem_cons.mp h with h1 | h1
        · exact h1
        · exact absurd h1 hr
      rw [applyServiceActions_enable_not_mem _ _ _ hr]
      simp [applyServiceAction, hna]

/-- Claim C7: `ConfigureServicesTask.run` applies all disablements before any
enablement, whatever the inputs are (the produced call sequence splits into a
disable-only part followed by an enable-only part); consequently any service
of the enabled list ends enabled, and in particular with
disabled=[a, b], enabled=[b] the service b ends in the enabled state. -/
theorem configure_services_disable_before_enable :
    (∀ t : ConfigureServicesTask,
      ∃ A B, t.run = A ++ B ∧ (∀ a ∈ A, a.isDisable = true) ∧ (∀ b ∈ B, b.isEnable = true))
    ∧ (∀ (t : ConfigureServicesTask) (n : String) (st : String → Bool),
        n ∈ t.enabled_services → applyServiceActions t.run st n = true)
    ∧ (∀ st : String → Bool,
        applyServiceActions
          (ConfigureServicesTask.run ⟨"/mnt/sysroot", ["a", "b"], ["b"]⟩) st "b" = true) := by
  refine ⟨?_, ?_, ?_⟩
  · intro t
    refine ⟨t.disabled_services.map ServiceAction.disableService,
      t.enabled_services.map ServiceAction.enableService, rfl, ?_, ?_⟩
    · intro a ha
      rcases List.mem_map.mp ha with ⟨x, _, hx⟩
      rw [← hx]; rfl
    · intro b hb
      rcases List.mem_map.mp hb with ⟨x, _, hx⟩
      rw [← hx]; rfl
  · intro t n st hn
    rw [ConfigureServicesTask.run, applyServiceActions_append]
    exact applyServiceActions_enable_mem _ _ _ hn
  · intro st
    show applyServiceActions (ConfigureServicesTask.run ⟨"/mnt/sysroot", ["a", "b"], ["b"]⟩)
      st "b" = true
    rw [ConfigureServicesTask.run, applyServiceActions_append]
    exact applyServiceActions_enable_mem ["b"] _ "b" (List.mem_singleton.mpr rfl)

theorem configure_services_disable_before_enable_witness :
    applyServiceActions (ConfigureServicesTask.run ⟨"/mnt/sysroot", ["a", "b"], ["b"]⟩)
      (fun _ => false) "b" = true :=
  configure_services_disable_before_enable.2.2 (fun _ => false)

/-! ## Theorems: ConfigureSystemdDefaultTargetTask (claims C9, C10) -/

/-- Claim C9: running the task with an unsupported default target — in
particular bogus-target, whatever the sysroot — raises the configuration
error and performs no filesystem mutation at all (the unsupported-target
check precedes every unlink/symlink). -/
theorem systemd_default_target_unsupported_no_mutation :
    (∀ (t : SystemdTargetTask) (fs : TargetFs),
        t.default_target ∉ SUPPORTED_SYSTEMD_TARGETS →
          t.run fs = ([], some (SystemdTargetErr.unsupportedTarget t.default_target)))
    ∧ (∀ (sysroot : String) (fs : TargetFs),
        (SystemdTargetTask.mk_task sysroot (some "bogus-target")).run fs
          = ([], some (SystemdTargetErr.unsupportedTarget "bogus-target"))) := by
  constructor
  · intro t fs h
    rw [SystemdTargetTask.run, if_pos h]
  · intro sysroot fs
    have hdt : (SystemdTargetTask.mk_task sysroot (some "bogus-target")).default_target
        = "bogus-target" := rfl
    have h : (SystemdTargetTask.mk_task sysroot (some "bogus-target")).default_target
        ∉ SUPPORTED_SYSTEMD_TARGETS := by
      rw [hdt]; decide
    rw [SystemdTargetTask.run, if_pos h, hdt]

theorem systemd_default_target_unsupported_no_mutation_witness :
    (SystemdTargetTask.mk_task "/mnt/sysroot" (some "bogus-target")).run ⟨true, true⟩
      = ([], some (SystemdTargetErr.unsupportedTarget "bogus-target")) :=
  systemd_default_target_unsupported_no_mutation.2 "/mnt/sysroot" ⟨true, true⟩

/-- Claim C10: a falsy default_target (None or the empty string) is replaced
by the text-only target in the constructor, so `run` can never fail the
unsupported-target check for such a task (it can still fail the
missing-directory check, which is a different error). -/
theorem systemd_default_target_falsy_default :
    ∀ (sysroot : String) (d : Option String), d = none ∨ d = some "" →
      (SystemdTargetTask.mk_task sysroot d).default_target = TEXT_ONLY_TARGET
      ∧ (∀ (fs : TargetFs) (tgt : String),
          ((SystemdTargetTask.mk_task sysroot d).run fs).2
            ≠ some (SystemdTargetErr.unsupportedTarget tgt)) := by
  intro sysroot d h
  have hd : (SystemdTargetTask.mk_task sysroot d).default_target = TEXT_ONLY_TARGET := by
    rcases h with h | h <;> rw [h] <;> rfl
  refine ⟨hd, ?_⟩
  intro fs tgt
  have hmem : (SystemdTargetTask.mk_task sysroot d).default_target
      ∈ SUPPORTED_SYSTEMD_TARGETS := by
    rw [hd]; exact List.mem_cons_self _ _
  rw [SystemdTargetTask.run, if_neg (not_not_intro hmem)]
  by_cases hfs : fs.etcSystemdSystemIsDir
  · simp [hfs]
  · simp [hfs]

theorem systemd_default_target_falsy_default_witness :
    (SystemdTargetTask.mk_task "/mnt/sysroot" none).default_target = TEXT_ONLY_TARGET
    ∧ ((SystemdTargetTask.mk_task "/mnt/sysroot" none).run ⟨false, false⟩).2
        ≠ some (SystemdTargetErr.unsupportedTarget "multi-user.target") :=
  ⟨(systemd_default_target_falsy_default "/mnt/sysroot" none (Or.inl rfl)).1,
    (systemd_default_target_falsy_default "/mnt/sysroot" none (Or.inl rfl)).2
      ⟨false, false⟩ "multi-user.target"⟩

/-! ## Theorems: TransferSubscriptionTokensTask (claim C8) -/

theorem transfer_rhsm_config_file_ok (t : TransferSubscriptionTokensTask) (env : RhsmEnv)
    (h : env.configIsFile = true) :
    t.transfer_rhsm_config_file env
      = Except.ok [CopyOp.file RHSM_CONFIG_FILE_PATH (t.sysroot ++ RHSM_CONFIG_FILE_PATH)] := by
  simp [TransferSubscriptionTokensTask.transfer_rhsm_config_file, copy_file_to_path, h]

theorem transfer_rhsm_config_file_err (t : TransferSubscriptionTokensTask) (env : RhsmEnv)
    (h : env.configIsFile = false) :
    t.transfer_rhsm_config_file env
      = Except.error ⟨"RHSM config file (" ++ RHSM_CONFIG_FILE_PATH ++ ") is missing."⟩ := by
  simp [TransferSubscriptionTokensTask.transfer_rhsm_config_file, copy_file_to_path, h]

theorem transfer_consumer_key_ok (t : TransferSubscriptionTokensTask) (env : RhsmEnv)
    (h : env.consumerKeyIsFile = true) :
    t.transfer_consumer_key env
      = Except.ok [CopyOp.file RHSM_CONSUMER_KEY_PATH (t.sysroot ++ RHSM_CONSUMER_KEY_PATH)] := by
  simp [TransferSubscriptionTokensTask.transfer_consumer_key, copy_file_to_path, h]

theorem transfer_consumer_key_err (t : TransferSubscriptionTokensTask) (env : RhsmEnv)
    (h : env.consumerKeyIsFile = false) :
    t.transfer_consumer_key env
      = Except.error ⟨"RHSM consumer key (" ++ RHSM_CONSUMER_KEY_PATH ++ ") is missing."⟩ := by
  simp [TransferSubscriptionTokensTask.transfer_consumer_key, copy_file_to_path, h]

theorem transfer_consumer_cert_ok (t : TransferSubscriptionTokensTask) (env : RhsmEnv)
    (h : env.consumerCertIsFile = true) :
    t.transfer_consumer_cert env
      = Except.ok [CopyOp.file RHSM_CONSUMER_CERT_PATH (t.sysroot ++ RHSM_CONSUMER_CERT_PATH)] := by
  simp [TransferSubscriptionTokensTask.transfer_consumer_cert, copy_file_to_path, h]

theorem transfer_consumer_cert_err (t : TransferSubscriptionTokensTask) (env : RhsmEnv)
    (h : env.consumerCertIsFile = false) :
    t.transfer_consumer_cert env
      = Except.error
          ⟨"RHSM consumer certificate (" ++ RHSM_CONSUMER_CERT_PATH ++ ") is missing."⟩ := by
  simp [TransferSubscriptionTokensTask.transfer_consumer_cert, copy_file_to_path, h]

theorem transfer_entitlement_keys_ok (t : TransferSubscriptionTokensTask) (env : RhsmEnv)
    (hdir : env.entitlementDirIsDir = true) (hne : env.entitlementEntries ≠ []) :
    t.transfer_entitlement_keys env = Except.ok (entitlementPemCopies t env) := by
  have hne2 : env.entitlementEntries.isEmpty = false := by
    cases henv : env.entitlementEntries with
    | nil => exact absurd henv hne
    | cons a l => rfl
  simp [TransferSubscriptionTokensTask.transfer_entitlement_keys, copy_pem_files, hdir, hne2,
    entitlementPemCopies]

theorem transfer_entitlement_keys_err (t : TransferSubscriptionTokensTask) (env : RhsmEnv)
    (h : ¬ (env.entitlementDirIsDir = true ∧ env.entitlementEntries ≠ [])) :
    t.transfer_entitlement_keys env
      = Except.error
          ⟨"RHSM entitlement keys (from " ++ RHSM_ENTITLEMENT_KEYS_PATH ++ ") are missing."⟩ := by
  by_cases hdir : env.entitlementDirIsDir = true
  · have hne : env.entitlementEntries = [] := by
      by_contra hne
      exact h ⟨hdir, hne⟩
    simp [TransferSubscriptionTokensTask.transfer_entitlement_keys, copy_pem_files, hdir, hne]
  · have hdir2 : env.entitlementDirIsDir = false := by
      cases hd : env.entitlementDirIsDir
      · rfl
      · exact absurd hd hdir
    simp [TransferSubscriptionTokensTask.transfer_entitlement_keys, copy_pem_files, hdir2]

theorem transfer_repo_file_ok (t : TransferSubscriptionTokensTask) (env : RhsmEnv)
    (h : env.repoIsFile = true) :
    t.transfer_repo_file env
      = Except.ok [CopyOp.file RHSM_REPO_FILE_PATH (t.sysroot ++ RHSM_REPO_FILE_PATH)] := by
  simp [TransferSubscriptionTokensTask.transfer_repo_file, copy_file_to_path, h]

theorem transfer_repo_file_err (t : TransferSubscriptionTokensTask) (env : RhsmEnv)
    (h : env.repoIsFile = false) :
    t.transfer_repo_file env
      = Except.error ⟨"RHSM generated repo file (" ++ RHSM_REPO_FILE_PATH ++ ") is missing"⟩ := by
  simp [TransferSubscriptionTokensTask.transfer_repo_file, copy_file_to_path, h]

/-- Claim C8: `TransferSubscriptionTokensTask.run` always transfers the
system-purpose file first and unconditionally; with
`transfer_subscription_tokens = False` it stops right after (no error for
absent credential files, only the syspurpose copy); with True the five
credential steps run in the fixed order config file, consumer key, consumer
cert, entitlement keys, repo file, and the first failing step raises
`SubscriptionTokenTransferError`, aborting all remaining steps. -/
theorem transfer_subscription_tokens_order
    (t : TransferSubscriptionTokensTask) (env : RhsmEnv) :
    (∃ rest, (t.run env).1 = t.transfer_system_purpose env ++ rest)
    ∧ (t.transfer_subscription_tokens = false →
        t.run env = (t.transfer_system_purpose env, none))
    ∧ (t.transfer_subscription_tokens = false → env.syspurposeExists = true →
        env.syspurposeIsFile = true →
        t.run env = ([CopyOp.file RHSM_SYSPURPOSE_FILE_PATH
          (t.sysroot ++ RHSM_SYSPURPOSE_FILE_PATH)], none))
    ∧ (t.transfer_subscription_tokens = true → env.configIsFile = false →
        t.run env = (t.transfer_system_purpose env,
          some ⟨"RHSM config file (" ++ RHSM_CONFIG_FILE_PATH ++ ") is missing."⟩))
    ∧ (t.transfer_subscription_tokens = true → env.configIsFile = true →
        env.consumerKeyIsFile = false →
        t.run env = (t.transfer_system_purpose env
            ++ [CopyOp.file RHSM_CONFIG_FILE_PATH (t.sysroot ++ RHSM_CONFIG_FILE_PATH)],
          some ⟨"RHSM consumer key (" ++ RHSM_CONSUMER_KEY_PATH ++ ") is missing."⟩))
    ∧ (t.transfer_subscription_tokens = true → env.configIsFile = true →
        env.consumerKeyIsFile = true → env.consumerCertIsFile = false →
        t.run env = (t.transfer_system_purpose env
            ++ [CopyOp.file RHSM_CONFIG_FILE_PATH (t.sysroot ++ RHSM_CONFIG_FILE_PATH)]
            ++ [CopyOp.file RHSM_CONSUMER_KEY_PATH (t.sysroot ++ RHSM_CONSUMER_KEY_PATH)],
          some ⟨"RHSM consumer certificate (" ++ RHSM_CONSUMER_CERT_PATH ++ ") is missing."⟩))
    ∧ (t.transfer_subscription_tokens = true → env.configIsFile = true →
        env.consumerKeyIsFile = true → env.consumerCertIsFile = true →
        ¬ (env.entitlementDirIsDir = true ∧ env.entitlementEntries ≠ []) →
        t.run env = (t.transfer_system_purpose env
            ++ [CopyOp.file RHSM_CONFIG_FILE_PATH (t.sysroot ++ RHSM_CONFIG_FILE_PATH)]
            ++ [CopyOp.file RHSM_CONSUMER_KEY_PATH (t.sysroot ++ RHSM_CONSUMER_KEY_PATH)]
            ++ [CopyOp.file RHSM_CONSUMER_CERT_PATH (t.sysroot ++ RHSM_CONSUMER_CERT_PATH)],
          some ⟨"RHSM entitlement keys (from " ++ RHSM_ENTITLEMENT_KEYS_PATH
            ++ ") are missing."⟩))
    ∧ (t.transfer_subscription_tokens = true → env.configIsFile = true →
        env.consumerKeyIsFile = true → env.consumerCertIsFile = true →
        env.entitlementDirIsDir = true → env.entitlementEntries ≠ [] →
        env.repoIsFile = false →
        t.run env = (t.transfer_system_purpose env
            ++ [CopyOp.file RHSM_CONFIG_FILE_PATH (t.sysroot ++ RHSM_CONFIG_FILE_PATH)]
            ++ [CopyOp.file RHSM_CONSUMER_KEY_PATH (t.sysroot ++ RHSM_CONSUMER_KEY_PATH)]
            ++ [CopyOp.file RHSM_CONSUMER_CERT_PATH (t.sysroot ++ RHSM_CONSUMER_CERT_PATH)]
            ++ entitlementPemCopies t env,
          some ⟨"RHSM generated repo file (" ++ RHSM_REPO_FILE_PATH ++ ") is missing"⟩))
    ∧ (t.transfer_subscription_tokens = true → env.configIsFile = true →
        env.consumerKeyIsFile = true → env.consumerCertIsFile = true →
        env.entitlementDirIsDir = true → env.entitlementEntries ≠ [] →
        env.repoIsFile = true →
        t.run env = (t.transfer_system_purpose env
            ++ [CopyOp.file RHSM_CONFIG_FILE_PATH (t.sysroot ++ RHSM_CONFIG_FILE_PATH)]
            ++ [CopyOp.file RHSM_CONSUMER_KEY_PATH (t.sysroot ++ RHSM_CONSUMER_KEY_PATH)]
            ++ [CopyOp.file RHSM_CONSUMER_CERT_PATH (t.sysroot ++ RHSM_CONSUMER_CERT_PATH)]
            ++ entitlementPemCopies t env
            ++ [CopyOp.file RHSM_REPO_FILE_PATH (t.sysroot ++ RHSM_REPO_FILE_PATH)],
          none)) := by
  refine ⟨?_, ?_, ?_, ?_, ?_, ?_, ?_, ?_, ?_⟩
  · by_cases hf : t.transfer_subscription_tokens
    · by_cases hc : env.configIsFile
      · by_cases hk : env.consumerKeyIsFile
        · by_cases hcert : env.consumerCertIsFile
          · by_cases hent : env.entitlementDirIsDir = true ∧ env.entitlementEntries ≠ []
            · by_cases hr : env.repoIsFile
              · simp [TransferSubscriptionTokensTask.run, hf,
                  transfer_rhsm_config_file_ok t env hc, transfer_consumer_key_ok t env hk,
                  transfer_consumer_cert_ok t env hcert,
                  transfer_entitlement_keys_ok t env hent.1 hent.2,
                  transfer_repo_file_ok t env hr]
              · simp [TransferSubscriptionTokensTask.run, hf,
                  transfer_rhsm_config_file_ok t env hc, transfer_consumer_key_ok t env hk,
                  transfer_consumer_cert_ok t env hcert,
                  transfer_entitlement_keys_ok t env hent.1 hent.2,
                  transfer_repo_file_err t env (Bool.eq_false_iff.mpr hr)]
            · simp [TransferSubscriptionTokensTask.run, hf,
                transfer_rhsm_config_file_ok t env hc, transfer_consumer_key_ok t env hk,
                transfer_consumer_cert_ok t env hcert,
                transfer_entitlement_keys_err t env hent]
          · simp [TransferSubscriptionTokensTask.run, hf,
              transfer_rhsm_config_file_ok t env hc, transfer_consumer_key_ok t env hk,
              transfer_consumer_cert_err t env (Bool.eq_false_iff.mpr hcert)]
        · simp [TransferSubscriptionTokensTask.run, hf,
            transfer_rhsm_config_file_ok t env hc,
            transfer_consumer_key_err t env (Bool.eq_false_iff.mpr hk)]
      · simp [TransferSubscriptionTokensTask.run, hf,
          transfer_rhsm_config_file_err t env (Bool.eq_false_iff.mpr hc)]
    · simp [TransferSubscriptionTokensTask.run, hf]
  · intro hf
    simp [TransferSubscriptionTokensTask.run, hf]
  · intro hf hse hsf
    simp [TransferSubscriptionTokensTask.run, hf,
      TransferSubscriptionTokensTask.transfer_system_purpose, hse, hsf, copy_file_to_path]
  · intro hf hc
    simp [TransferSubscriptionTokensTask.run, hf, transfer_rhsm_config_file_err t env hc]
  · intro hf hc hk
    simp [TransferSubscriptionTokensTask.run, hf, transfer_rhsm_config_file_ok t env hc,
      transfer_consumer_key_err t env hk]
  · intro hf hc hk hcert
    simp [TransferSubscriptionTokensTask.run, hf, transfer_rhsm_config_file_ok t env hc,
      transfer_consumer_key_ok t env hk, transfer_consumer_cert_err t env hcert]
  · intro hf hc hk hcert hent
    simp [TransferSubscriptionTokensTask.run, hf, transfer_rhsm_config_file_ok t env hc,
      transfer_consumer_key_ok t env hk, transfer_consumer_cert_ok t env hcert,
      transfer_entitlement_keys_err t env hent]
  · intro hf hc hk hcert hdir hne hr
    simp [TransferSubscriptionTokensTask.run, hf, transfer_rhsm_config_file_ok t env hc,
      transfer_consumer_key_ok t env hk, transfer_consumer_cert_ok t env hcert,
      transfer_entitlement_keys_ok t env hdir hne, transfer_repo_file_err t env hr]
  · intro hf hc hk hcert hdir hne hr
    simp [TransferSubscriptionTokensTask.run, hf, transfer_rhsm_config_file_ok t env hc,
      transfer_consumer_key_ok t env hk, transfer_consumer_cert_ok t env hcert,
      transfer_entitlement_keys_ok t env hdir hne, transfer_repo_file_ok t env hr]

theorem transfer_subscription_tokens_order_witness :
    TransferSubscriptionTokensTask.run ⟨"/mnt/sysroot", false⟩
      ⟨true, true, false, false, false, false, [], false⟩
      = ([CopyOp.file RHSM_SYSPURPOSE_FILE_PATH ("/mnt/sysroot" ++ RHSM_SYSPURPOSE_FILE_PATH)],
        none) :=
  (transfer_subscription_tokens_order ⟨"/mnt/sysroot", false⟩
    ⟨true, true, false, false, false, false, [], false⟩).2.2.1 rfl rfl rfl

/-! ## Theorems: FirewallModule round trip (claim C4) -/

/-- Claim C4 (evaluation of the code at the failing input): exporting a module
whose firewall was disabled and importing the export into a fresh module does
not reproduce the property set.  The export does carry enabled = False, but
`process_kickstart` rebinds the attribute names of the six setters instead of
calling them, so the six property fields of the importing module keep their
defaults whatever value the `self.seen` lookup produced — and when that lookup
raises (no class under src/ defines `seen`), the import fails outright. -/
theorem firewall_kickstart_roundtrip_broken :
    (((freshFirewallModule.set_firewall_enabled false).setup_kickstart
        ⟨false, true, [], [], [], []⟩).enabled = false)
    ∧ (∀ (m : FirewallModule) (b : Bool) (d : FirewallData),
        (m.process_kickstart (Except.ok b) d).map FirewallModule.props
          = Except.ok ((m.set_firewall_seen b).props))
    ∧ ((freshFirewallModule.process_kickstart (Except.ok false)
          ((freshFirewallModule.set_firewall_enabled false).setup_kickstart
            ⟨false, true, [], [], [], []⟩)).map FirewallModule.props
        = Except.ok freshFirewallModule.props)
    ∧ (freshFirewallModule.props ≠ (freshFirewallModule.set_firewall_enabled false).props)
    ∧ (freshFirewallModule.process_kickstart (Except.error (PyErr.attributeError "seen"))
        ((freshFirewallModule.set_firewall_enabled false).setup_kickstart
          ⟨false, true, [], [], [], []⟩)
        = Except.error (PyErr.attributeError "seen")) := by
  refine ⟨rfl, ?_, rfl, ?_, rfl⟩
  · intro m b d
    rfl
  · simp [FirewallModule.props, freshFirewallModule, FirewallModule.set_firewall_enabled]

/-! ## Theorems: users module sentinel conversion (claim C5) -/

/-- Claim C5: the sentinel conversion holds in both directions for the uid and
gid of a user (`apply_ksdata_to_user_data` / `user_data_to_ksdata`), and the
export side of a group produces an absent gid for the sentinel (while also
mutating the property model, the slip of users.py line 182); but importing any
kickstart group crashes with NameError over the unbound name `ksdata`
(users.py line 149), so the group-import half of the claim fails on the code:
the failing input is a kickstart with a single group whose gid is absent. -/
theorem users_sentinel_conversion :
    (∀ (ud : UserData) (ks : UserKickstartData), ks.uid = none →
      (apply_ksdata_to_user_data ud ks).uid = -1)
    ∧ (∀ (ud : UserData) (ks : UserKickstartData), ks.gid = none →
      (apply_ksdata_to_user_data ud ks).gid = -1)
    ∧ (∀ (ud : UserData) (ks : UserKickstartData) (u : Int), ks.uid = some u →
      (apply_ksdata_to_user_data ud ks).uid = u)
    ∧ (∀ (ud : UserData) (ks : UserKickstartData) (g : Int), ks.gid = some g →
      (apply_ksdata_to_user_data ud ks).gid = g)
    ∧ (∀ ud : UserData, ud.uid = -1 → (user_data_to_ksdata ud).uid = none)
    ∧ (∀ ud : UserData, ud.gid = -1 → (user_data_to_ksdata ud).gid = none)
    ∧ (∀ ud : UserData, ud.uid ≠ -1 → (user_data_to_ksdata ud).uid = some ud.uid)
    ∧ (∀ ud : UserData, ud.gid ≠ -1 → (user_data_to_ksdata ud).gid = some ud.gid)
    ∧ (∀ gd : GroupData, gd.gid = some (-1) →
        (generate_group_ksdata gd).1.gid = none ∧ (generate_group_ksdata gd).2.gid = none)
    ∧ (process_kickstart_groups [{ name := "wheel" }] []
        = Except.error (PyErr.nameError "ksdata")) := by
  refine ⟨?_, ?_, ?_, ?_, ?_, ?_, ?_, ?_, ?_, rfl⟩
  · intro ud ks h
    simp [apply_ksdata_to_user_data, h]
  · intro ud ks h
    simp [apply_ksdata_to_user_data, h]
  · intro ud ks u h
    simp [apply_ksdata_to_user_data, h]
  · intro ud ks g h
    simp [apply_ksdata_to_user_data, h]
  · intro ud h
    simp [user_data_to_ksdata, h]
  · intro ud h
    simp [user_data_to_ksdata, h]
  · intro ud h
    simp [user_data_to_ksdata, h]
  · intro ud h
    simp [user_data_to_ksdata, h]
  · intro gd h
    constructor
    · simp [generate_group_ksdata, h]
    · simp [generate_group_ksdata, h]

/-! ## Theorems: ServiceObserver basics -/

@[simp] theorem setCaller_proxy (s : ObsState) (i : Nat) (c : ObsCallerPhase) :
    (s.setCaller i c).proxy = s.proxy := rfl

@[simp] theorem setCaller_timerExists (s : ObsState) (i : Nat) (c : ObsCallerPhase) :
    (s.setCaller i c).timerExists = s.timerExists := rfl

@[simp] theorem setCaller_timerExpired (s : ObsState) (i : Nat) (c : ObsCallerPhase) :
    (s.setCaller i c).timerExpired = s.timerExpired := rfl

@[simp] theorem setCaller_timerCancelled (s : ObsState) (i : Nat) (c : ObsCallerPhase) :
    (s.setCaller i c).timerCancelled = s.timerCancelled := rfl

@[simp] theorem setCaller_connected (s : ObsState) (i : Nat) (c : ObsCallerPhase) :
    (s.setCaller i c).connected = s.connected := rfl

@[simp] theorem setCaller_activated (s : ObsState) (i : Nat) (c : ObsCallerPhase) :
    (s.setCaller i c).activated = s.activated := rfl

@[simp] theorem setCaller_startCount (s : ObsState) (i : Nat) (c : ObsCallerPhase) :
    (s.setCaller i c).startCount = s.startCount := rfl

@[simp] theorem setCaller_callers (s : ObsState) (i : Nat) (c : ObsCallerPhase) :
    (s.setCaller i c).callers = s.callers.set i c := rfl

@[simp] theorem setCaller_timerFinished (s : ObsState) (i : Nat) (c : ObsCallerPhase) :
    (s.setCaller i c).timerFinished = s.timerFinished := rfl

theorem obsRun_append (cfg : ObsConfig) (s : ObsState) (t1 t2 : List ObsLabel) :
    obsRun cfg s (t1 ++ t2) = (obsRun cfg s t1).bind (fun s1 => obsRun cfg s1 t2) := by
  induction t1 generalizing s with
  | nil => rfl
  | cons l rest ih =>
    show obsRun cfg s (l :: (rest ++ t2)) = (obsRun cfg s (l :: rest)).bind _
    rw [obsRun, obsRun]
    cases h : obsStep cfg s l with
    | none => rfl
    | some s1 => exact ih s1

theorem obsInit_inv (n : Nat) : ObsInv n (obsInit n) := by
  refine ⟨List.length_replicate n _, rfl, ?_, ?_, ?_, ?_, ?_, ?_⟩
  · intro h; cases h
  · intro h; cases h
  · intro h; cases h
  · intro h; cases h
  · intro h; exact absurd rfl h
  · intro c hc hne
    exact absurd (List.eq_of_mem_replicate hc) hne

theorem obsStep_inv {n : Nat} {cfg : ObsConfig} {s s1 : ObsState} {l : ObsLabel}
    (hstep : obsStep cfg s l = some s1) (hinv : ObsInv n s) : ObsInv n s1 := by
  obtain ⟨hlen, hstart, hconn, hact, hexp, hcanc, hproxy, hcallers⟩ := hinv
  cases l with
  | enter i =>
    simp only [obsStep] at hstep
    cases hget : s.callers.get? i with
    | none => rw [hget] at hstep; exact absurd hstep (by simp)
    | some c =>
      rw [hget] at hstep
      cases c with
      | waiting => exact absurd hstep (by simp)
      | done r => exact absurd hstep (by simp)
      | idle =>
        cases hp : s.proxy with
        | some p =>
          rw [hp] at hstep
          simp only [Option.some.injEq] at hstep
          subst hstep
          have htimer : s.timerExists = true :=
            hconn (hact (hproxy (by rw [hp]; exact fun h => Option.noConfusion h)))
          refine ⟨by simpa using hlen, by simpa using hstart, by simpa using hconn,
            by simpa using hact, by simpa using hexp, by simpa using hcanc,
            by simpa using hproxy, ?_⟩
          intro c2 hc2 _
          simpa using htimer
        | none =>
          rw [hp] at hstep
          by_cases ht : s.timerExists
          · rw [if_pos ht] at hstep
            simp only [Option.some.injEq] at hstep
            subst hstep
            refine ⟨by simpa using hlen, by simpa using hstart, by simpa using hconn,
              by simpa using hact, by simpa using hexp, by simpa using hcanc,
              by simpa using hproxy, ?_⟩
            intro c2 hc2 _
            simpa using ht
          · rw [if_neg ht] at hstep
            simp only [Option.some.injEq] at hstep
            subst hstep
            have hstart0 : s.startCount = 0 := by
              rw [hstart, if_neg ht]
            refine ⟨by simpa using hlen, by simp [hstart0], by simp,
              ?_, ?_, by simpa using hcanc, ?_, ?_⟩
            · intro _; rfl
            · intro hx
              have := hexp (by simpa using hx)
              exact absurd this ht
            · intro hx
              exact absurd (by simpa using hx : s.proxy ≠ none) (by rw [hp]; simp)
            · intro c2 hc2 _
              rfl
  | expire =>
    simp only [obsStep] at hstep
    by_cases hcond : s.timerExists && !s.timerCancelled && !s.timerExpired
    · rw [if_pos hcond] at hstep
      simp only [Option.some.injEq] at hstep
      subst hstep
      simp only [Bool.and_eq_true, Bool.not_eq_true'] at hcond
      exact ⟨hlen, hstart, hconn, hact, fun _ => hcond.1.1, hcanc, hproxy, hcallers⟩
    · rw [if_neg hcond] at hstep
      exact absurd hstep (by simp)
  | activate =>
    simp only [obsStep] at hstep
    by_cases hcond : s.connected && !s.activated
    · rw [if_pos hcond] at hstep
      simp only [Option.some.injEq] at hstep
      subst hstep
      have hc2 : s.connected = true := by
        have := hcond
        simp [Bool.and_eq_true] at this
        exact this.1
      exact ⟨hlen, hstart, fun _ => hconn hc2, fun _ => hc2, hexp, fun _ => rfl,
        fun _ => rfl, hcallers⟩
    · rw [if_neg hcond] at hstep
      exact absurd hstep (by simp)
  | check i =>
    simp only [obsStep] at hstep
    cases hget : s.callers.get? i with
    | none => rw [hget] at hstep; exact absurd hstep (by simp)
    | some c =>
      rw [hget] at hstep
      cases c with
      | idle => exact absurd hstep (by simp)
      | done r => exact absurd hstep (by simp)
      | waiting =>
        by_cases hfin : s.timerFinished
        · rw [if_pos hfin] at hstep
          have htimer : s.timerExists = true := by
            rcases Bool.or_eq_true _ _ |>.mp (by simpa [ObsState.timerFinished] using hfin)
              with hx | hx
            · exact hexp hx
            · exact hconn (hact (hcanc hx))
          cases hp : s.proxy with
          | some p =>
            rw [hp] at hstep
            simp only [Option.some.injEq] at hstep
            subst hstep
            refine ⟨by simpa using hlen, by simpa using hstart, by simpa using hconn,
              by simpa using hact, by simpa using hexp, by simpa using hcanc,
              by simpa using hproxy, ?_⟩
            intro c2 hc2 _
            simpa using htimer
          | none =>
            rw [hp] at hstep
            simp only [Option.some.injEq] at hstep
            subst hstep
            refine ⟨by simpa using hlen, by simpa using hstart, by simpa using hconn,
              by simpa using hact, by simpa using hexp, by simpa using hcanc,
              by simpa using hproxy, ?_⟩
            intro c2 hc2 _
            simpa using htimer
        · rw [if_neg hfin] at hstep
          exact absurd hstep (by simp)

theorem obsRun_inv {n : Nat} {cfg : ObsConfig} {s s1 : ObsState} {tr : List ObsLabel}
    (hrun : obsRun cfg s tr = some s1) (hinv : ObsInv n s) : ObsInv n s1 := by
  induction tr generalizing s with
  | nil =>
    simp only [obsRun, Option.some.injEq] at hrun
    exact hrun ▸ hinv
  | cons l rest ih =>
    rw [obsRun] at hrun
    cases h : obsStep cfg s l with
    | none => rw [h] at hrun; exact absurd hrun (by simp)
    | some s2 =>
      rw [h] at hrun
      exact ih hrun (obsStep_inv h hinv)

/-! ## Theorem: claim C2 — the service is started exactly once -/

/-- Claim C2: over every interleaving of `get_proxy` calls and callbacks,
`util.start_service` runs at most once per observer, and exactly once as soon
as any caller has passed the first locked section of `get_proxy` (only the
first caller to observe no proxy and no timer triggers it; nobody
re-triggers). -/
theorem service_start_triggered_once (cfg : ObsConfig) (n : Nat) (tr : List ObsLabel)
    (s : ObsState) (hrun : obsRun cfg (obsInit n) tr = some s) :
    s.startCount ≤ 1 ∧ ((∃ c ∈ s.callers, c ≠ ObsCallerPhase.idle) → s.startCount = 1) := by
  have hinv := obsRun_inv hrun (obsInit_inv n)
  obtain ⟨-, hstart, -, -, -, -, -, hcallers⟩ := hinv
  constructor
  · rw [hstart]
    by_cases ht : s.timerExists
    · rw [if_pos ht]
    · rw [if_neg ht]
      exact Nat.zero_le 1
  · rintro ⟨c, hc, hne⟩
    rw [hstart, if_pos (hcallers c hc hne)]

theorem service_start_triggered_once_witness :
    (obsRun ⟨"com.redhat.RHSM1", "rhsm.service", 7⟩ (obsInit 2)
        [ObsLabel.enter 0, ObsLabel.enter 1]
      = some { proxy := none, timerExists := true, timerExpired := false,
               timerCancelled := false, connected := true, activated := false,
               startCount := 1,
               callers := [ObsCallerPhase.waiting, ObsCallerPhase.waiting] })
    ∧ ({ proxy := none, timerExists := true, timerExpired := false,
         timerCancelled := false, connected := true, activated := false,
         startCount := 1,
         callers := [ObsCallerPhase.waiting, ObsCallerPhase.waiting] : ObsState }).startCount
        = 1 :=
  ⟨by decide,
    (service_start_triggered_once ⟨"com.redhat.RHSM1", "rhsm.service", 7⟩ 2
      [ObsLabel.enter 0, ObsLabel.enter 1] _ (by decide)).2
      ⟨ObsCallerPhase.waiting, by decide, by decide⟩⟩

/-! ## Theorem: claim C6 — the proxy is set at most once, never reset -/

theorem obsStep_proxy_mono {cfg : ObsConfig} {s s1 : ObsState} {l : ObsLabel}
    (hstep : obsStep cfg s l = some s1) (hpa : s.proxy ≠ none → s.activated = true)
    (p : Nat) (hp : s.proxy = some p) : s1.proxy = some p := by
  cases l with
  | enter i =>
    simp only [obsStep] at hstep
    cases hget : s.callers.get? i with
    | none => rw [hget] at hstep; exact absurd hstep (by simp)
    | some c =>
      rw [hget] at hstep
      cases c with
      | waiting => exact absurd hstep (by simp)
      | done r => exact absurd hstep (by simp)
      | idle =>
        rw [hp] at hstep
        simp only [Option.some.injEq] at hstep
        subst hstep
        simpa using hp
  | expire =>
    simp only [obsStep] at hstep
    by_cases hcond : s.timerExists && !s.timerCancelled && !s.timerExpired
    · rw [if_pos hcond] at hstep
      simp only [Option.some.injEq] at hstep
      subst hstep
      simpa using hp
    · rw [if_neg hcond] at hstep
      exact absurd hstep (by simp)
  | activate =>
    simp only [obsStep] at hstep
    have hactv : s.activated = true := hpa (by rw [hp]; exact fun h => Option.noConfusion h)
    have hcond : (s.connected && !s.activated) = false := by
      rw [hactv]
      simp
    rw [hcond] at hstep
    exact absurd hstep (by simp)
  | check i =>
    simp only [obsStep] at hstep
    cases hget : s.callers.get? i with
    | none => rw [hget] at hstep; exact absurd hstep (by simp)
    | some c =>
      rw [hget] at hstep
      cases c with
      | idle => exact absurd hstep (by simp)
      | done r => exact absurd hstep (by simp)
      | waiting =>
        by_cases hfin : s.timerFinished
        · rw [if_pos hfin, hp] at hstep
          simp only [Option.some.injEq] at hstep
          subst hstep
          simpa using hp
        · rw [if_neg hfin] at hstep
          exact absurd hstep (by simp)

theorem obsRun_proxy_mono {n : Nat} {cfg : ObsConfig} {s s2 : ObsState} {tr : List ObsLabel}
    (hinv : ObsInv n s) (hrun : obsRun cfg s tr = some s2)
    (p : Nat) (hp : s.proxy = some p) : s2.proxy = some p := by
  induction tr generalizing s with
  | nil =>
    simp only [obsRun, Option.some.injEq] at hrun
    exact hrun ▸ hp
  | cons l rest ih =>
    rw [obsRun] at hrun
    cases h : obsStep cfg s l with
    | none => rw [h] at hrun; exact absurd hrun (by simp)
    | some s1 =>
      rw [h] at hrun
      exact ih (obsStep_inv h hinv) hrun (obsStep_proxy_mono h hinv.2.2.2.2.2.2.1 p hp)

theorem obsTraj_shape {cfg : ObsConfig} {s : ObsState} {tr : List ObsLabel}
    {states : List ObsState} (h : obsTraj cfg s tr = some states) :
    ∃ rest, states = s :: rest := by
  cases tr with
  | nil =>
    simp only [obsTraj, Option.some.injEq] at h
    exact ⟨[], h.symm⟩
  | cons l rest =>
    rw [obsTraj] at h
    cases hs : obsStep cfg s l with
    | none => rw [hs] at h; exact absurd h (by simp)
    | some s1 =>
      rw [hs] at h
      have h2 : Option.map (fun states => s :: states) (obsTraj cfg s1 rest) = some states := h
      cases ht : obsTraj cfg s1 rest with
      | none => rw [ht] at h2; exact absurd h2 (by simp)
      | some states1 =>
        rw [ht] at h2
        simp only [Option.map_some', Option.some.injEq] at h2
        exact ⟨states1, h2.symm⟩

theorem obsTraj_proxyMono {n : Nat} {cfg : ObsConfig} {s : ObsState} {tr : List ObsLabel}
    {states : List ObsState} (hinv : ObsInv n s) (h : obsTraj cfg s tr = some states) :
    proxyMono states := by
  induction tr generalizing s states with
  | nil =>
    simp only [obsTraj, Option.some.injEq] at h
    rw [← h]
    trivial
  | cons l rest ih =>
    rw [obsTraj] at h
    cases hs : obsStep cfg s l with
    | none => rw [hs] at h; exact absurd h (by simp)
    | some s1 =>
      rw [hs] at h
      have h2 : Option.map (fun states => s :: states) (obsTraj cfg s1 rest) = some states := h
      cases ht : obsTraj cfg s1 rest with
      | none => rw [ht] at h2; exact absurd h2 (by simp)
      | some states1 =>
        rw [ht] at h2
        simp only [Option.map_some', Option.some.injEq] at h2
        obtain ⟨rest1, hshape⟩ := obsTraj_shape ht
        have hmono1 : proxyMono states1 := ih (obsStep_inv hs hinv) ht
        rw [← h2, hshape]
        refine ⟨?_, by rw [hshape] at hmono1; exact hmono1⟩
        intro hsome
        obtain ⟨p, hp⟩ := Option.isSome_iff_exists.mp hsome
        rw [obsStep_proxy_mono hs hinv.2.2.2.2.2.2.1 p hp]
        rfl

theorem countProxySets_zero_of_head_some :
    ∀ (l : List ObsState) (a : ObsState), a.proxy.isSome = true → proxyMono (a :: l) →
      countProxySets (a :: l) = 0 := by
  intro l
  induction l with
  | nil => intro a _ _; rfl
  | cons b rest ih =>
    intro a ha hmono
    have hb : b.proxy.isSome = true := hmono.1 ha
    show (if a.proxy.isNone && b.proxy.isSome then 1 else 0) + countProxySets (b :: rest) = 0
    rw [ih b hb hmono.2]
    have : a.proxy.isNone = false := by
      cases hap : a.proxy
      · rw [hap] at ha; exact absurd ha (by simp)
      · rfl
    rw [this]
    rfl

theorem countProxySets_le_one :
    ∀ l : List ObsState, proxyMono l → countProxySets l ≤ 1 := by
  intro l
  induction l with
  | nil => intro _; exact Nat.zero_le 1
  | cons a rest ih =>
    intro hmono
    cases rest with
    | nil => exact Nat.zero_le 1
    | cons b rest2 =>
      by_cases ha : a.proxy.isSome = true
      · rw [countProxySets_zero_of_head_some _ a ha hmono]
        exact Nat.zero_le 1
      · have haN : a.proxy.isNone = true := by
          cases hap : a.proxy
          · rfl
          · rw [hap] at ha; exact absurd rfl ha
        show (if a.proxy.isNone && b.proxy.isSome then 1 else 0)
          + countProxySets (b :: rest2) ≤ 1
        by_cases hb : b.proxy.isSome = true
        · rw [countProxySets_zero_of_head_some _ b hb hmono.2, haN, hb]
          exact Nat.le_refl 1
        · have hbF : b.proxy.isSome = false := by
            cases hbp : b.proxy.isSome
            · rfl
            · exact absurd hbp hb
          rw [haN, hbF]
          simpa using ih hmono.2

/-- Claim C6: once the proxy of an observer is set it is never reset — along
any continuation of any reachable run the stored proxy value persists — and
along any run from a fresh observer the proxy moves from unset to set at most
once. -/
theorem proxy_set_at_most_once :
    (∀ (cfg : ObsConfig) (n : Nat) (tr1 tr2 : List ObsLabel) (s s2 : ObsState) (p : Nat),
        obsRun cfg (obsInit n) tr1 = some s →
        obsRun cfg s tr2 = some s2 →
        s.proxy = some p → s2.proxy = some p)
    ∧ (∀ (cfg : ObsConfig) (n : Nat) (tr : List ObsLabel) (states : List ObsState),
        obsTraj cfg (obsInit n) tr = some states → countProxySets states ≤ 1) := by
  constructor
  · intro cfg n tr1 tr2 s s2 p hrun1 hrun2 hp
    exact obsRun_proxy_mono (obsRun_inv hrun1 (obsInit_inv n)) hrun2 p hp
  · intro cfg n tr states htraj
    exact countProxySets_le_one states (obsTraj_proxyMono (obsInit_inv n) htraj)

theorem proxy_set_at_most_once_witness :
    ({ proxy := some 5, timerExists := true, timerExpired := false, timerCancelled := true,
       connected := true, activated := true, startCount := 1,
       callers := [ObsCallerPhase.done (ObsCallResult.gotProxy 5)] : ObsState }).proxy
      = some 5 :=
  proxy_set_at_most_once.1 ⟨"com.redhat.RHSM1", "rhsm.service", 5⟩ 1
    [ObsLabel.enter 0, ObsLabel.activate] [ObsLabel.check 0]
    { proxy := some 5, timerExists := true, timerExpired := false, timerCancelled := true,
      connected := true, activated := true, startCount := 1,
      callers := [ObsCallerPhase.waiting] }
    { proxy := some 5, timerExists := true, timerExpired := false, timerCancelled := true,
      connected := true, activated := true, startCount := 1,
      callers := [ObsCallerPhase.done (ObsCallResult.gotProxy 5)] }
    5 (by decide) (by decide) rfl

/-! ## Theorem: claim C3 — calls after the wait has resolved -/

theorem listGetSetSelf {α : Type} (l : List α) (i : Nat) (a : α) (h : i < l.length) :
    (l.set i a).get? i = some a := by
  rw [List.get?_eq_getElem?, List.getElem?_set_eq_of_lt a h]

theorem obsStep_enter_idle (cfg : ObsConfig) (s : ObsState) (i : Nat)
    (hidle : s.callers.get? i = some ObsCallerPhase.idle) :
    obsStep cfg s (ObsLabel.enter i)
      = match s.proxy with
        | some p => some (s.setCaller i (ObsCallerPhase.done (ObsCallResult.gotProxy p)))
        | none =>
          if s.timerExists then some (s.setCaller i ObsCallerPhase.waiting)
          else some { s.setCaller i ObsCallerPhase.waiting with
                      timerExists := true, connected := true,
                      startCount := s.startCount + 1 } := by
  simp only [obsStep]
  rw [hidle]

theorem obsStep_check_waiting (cfg : ObsConfig) (s : ObsState) (j : Nat)
    (hw : s.callers.get? j = some ObsCallerPhase.waiting) :
    obsStep cfg s (ObsLabel.check j)
      = if s.timerFinished then
          match s.proxy with
          | some p => some (s.setCaller j (ObsCallerPhase.done (ObsCallResult.gotProxy p)))
          | none => some (s.setCaller j
              (ObsCallerPhase.done (ObsCallResult.unavailable (obsErrMsg cfg))))
        else none := by
  simp only [obsStep]
  rw [hw]

/-- Claim C3: once the timer of a reachable observer state has finished, a
fresh `get_proxy` call neither blocks nor re-triggers the service start: with
a stored proxy it returns it in its first step; without one its two steps are
enabled back to back (nothing else has to happen in between) and the second
raises the `DBusObserverError`; the start count never moves.  In general a
caller finishing its wait raises exactly when no proxy was set at that
moment, and the error message contains both the DBus service name and the
systemd unit name. -/
theorem get_proxy_after_wait_resolved (cfg : ObsConfig) (n : Nat) (tr : List ObsLabel)
    (s : ObsState) (i : Nat)
    (hrun : obsRun cfg (obsInit n) tr = some s)
    (hfin : s.timerFinished = true)
    (hidle : s.callers.get? i = some ObsCallerPhase.idle) :
    (∀ p, s.proxy = some p →
      obsStep cfg s (ObsLabel.enter i)
        = some (s.setCaller i (ObsCallerPhase.done (ObsCallResult.gotProxy p))))
    ∧ (s.proxy = none →
        obsStep cfg s (ObsLabel.enter i) = some (s.setCaller i ObsCallerPhase.waiting)
        ∧ obsStep cfg (s.setCaller i ObsCallerPhase.waiting) (ObsLabel.check i)
            = some ((s.setCaller i ObsCallerPhase.waiting).setCaller i
                (ObsCallerPhase.done (ObsCallResult.unavailable (obsErrMsg cfg)))))
    ∧ (∀ s2, obsStep cfg s (ObsLabel.enter i) = some s2 → s2.startCount = s.startCount)
    ∧ (∀ (j : Nat) (s3 s4 : ObsState), s3.callers.get? j = some ObsCallerPhase.waiting →
        obsStep cfg s3 (ObsLabel.check j) = some s4 →
          (s4.callers.get? j
              = some (ObsCallerPhase.done (ObsCallResult.unavailable (obsErrMsg cfg)))
            ↔ s3.proxy = none))
    ∧ strContains (obsErrMsg cfg) cfg.dbus_service_name
    ∧ strContains (obsErrMsg cfg) cfg.systemd_unit_name := by
  have hinv := obsRun_inv hrun (obsInit_inv n)
  obtain ⟨hlen, hstart, hconn, hact, hexp, hcanc, hproxy, hcallers⟩ := hinv
  have htimer : s.timerExists = true := by
    rcases (Bool.or_eq_true _ _).mp (by simpa [ObsState.timerFinished] using hfin)
      with hx | hx
    · exact hexp hx
    · exact hconn (hact (hcanc hx))
  have hlt : i < s.callers.length := (List.get?_eq_some.mp hidle).fst
  refine ⟨?_, ?_, ?_, ?_, ?_, ?_⟩
  · intro p hp
    rw [obsStep_enter_idle cfg s i hidle, hp]
  · intro hp
    constructor
    · rw [obsStep_enter_idle cfg s i hidle, hp]
      show (if s.timerExists = true then _ else _) = _
      rw [if_pos htimer]
    · have hget2 : ((s.setCaller i ObsCallerPhase.waiting).callers).get? i
          = some ObsCallerPhase.waiting := by
        simpa using listGetSetSelf s.callers i ObsCallerPhase.waiting hlt
      rw [obsStep_check_waiting cfg _ i hget2]
      simp only [setCaller_timerFinished, setCaller_proxy]
      rw [if_pos hfin, hp]
  · intro s2 hstep
    rw [obsStep_enter_idle cfg s i hidle] at hstep
    cases hp : s.proxy with
    | some p =>
      rw [hp] at hstep
      simp only [Option.some.injEq] at hstep
      rw [← hstep]
      rfl
    | none =>
      rw [hp] at hstep
      rw [show (if s.timerExists = true then some (s.setCaller i ObsCallerPhase.waiting)
          else some { s.setCaller i ObsCallerPhase.waiting with
                      timerExists := true, connected := true,
                      startCount := s.startCount + 1 })
          = some (s.setCaller i ObsCallerPhase.waiting) from if_pos htimer] at hstep
      simp only [Option.some.injEq] at hstep
      rw [← hstep]
      rfl
  · intro j s3 s4 hw hstep
    have hlt3 : j < s3.callers.length := (List.get?_eq_some.mp hw).fst
    rw [obsStep_check_waiting cfg s3 j hw] at hstep
    by_cases hfin3 : s3.timerFinished = true
    · rw [if_pos hfin3] at hstep
      cases hp : s3.proxy with
      | some p =>
        rw [hp] at hstep
        simp only [Option.some.injEq] at hstep
        rw [← hstep]
        constructor
        · intro hx
          rw [setCaller_callers, listGetSetSelf _ _ _ hlt3] at hx
          simp at hx
        · intro hx
          exact absurd hx (by simp)
      | none =>
        rw [hp] at hstep
        simp only [Option.some.injEq] at hstep
        rw [← hstep]
        constructor
        · intro _
          rfl
        · intro _
          rw [setCaller_callers, listGetSetSelf _ _ _ hlt3]
    · rw [if_neg hfin3] at hstep
      exact absurd hstep (by simp)
  · refine ⟨"DBus service ",
      " with unit " ++ (cfg.systemd_unit_name ++ " failed to start."), ?_⟩
    rw [obsErrMsg, String.append_assoc]
  · refine ⟨"DBus service " ++ cfg.dbus_service_name ++ " with unit ",
      " failed to start.", ?_⟩
    rw [obsErrMsg]
    simp [String.append_assoc]

theorem get_proxy_after_wait_resolved_witness :
    obsStep ⟨"com.redhat.RHSM1", "rhsm.service", 9⟩
        { proxy := none, timerExists := true, timerExpired := true, timerCancelled := false,
          connected := true, activated := false, startCount := 1,
          callers := [ObsCallerPhase.done (ObsCallResult.unavailable
              (obsErrMsg ⟨"com.redhat.RHSM1", "rhsm.service", 9⟩)),
            ObsCallerPhase.idle] }
        (ObsLabel.enter 1)
      = some (ObsState.setCaller
          { proxy := none, timerExists := true, timerExpired := true, timerCancelled := false,
            connected := true, activated := false, startCount := 1,
            callers := [ObsCallerPhase.done (ObsCallResult.unavailable
                (obsErrMsg ⟨"com.redhat.RHSM1", "rhsm.service", 9⟩)),
              ObsCallerPhase.idle] }
          1 ObsCallerPhase.waiting)
    ∧ obsStep ⟨"com.redhat.RHSM1", "rhsm.service", 9⟩
        (ObsState.setCaller
          { proxy := none, timerExists := true, timerExpired := true, timerCancelled := false,
            connected := true, activated := false, startCount := 1,
            callers := [ObsCallerPhase.done (ObsCallResult.unavailable
                (obsErrMsg ⟨"com.redhat.RHSM1", "rhsm.service", 9⟩)),
              ObsCallerPhase.idle] }
          1 ObsCallerPhase.waiting)
        (ObsLabel.check 1)
      = some (ObsState.setCaller
          (ObsState.setCaller
            { proxy := none, timerExists := true, timerExpired := true, timerCancelled := false,
              connected := true, activated := false, startCount := 1,
              callers := [ObsCallerPhase.done (ObsCallResult.unavailable
                  (obsErrMsg ⟨"com.redhat.RHSM1", "rhsm.service", 9⟩)),
                ObsCallerPhase.idle] }
            1 ObsCallerPhase.waiting)
          1 (ObsCallerPhase.done (ObsCallResult.unavailable
              (obsErrMsg ⟨"com.redhat.RHSM1", "rhsm.service", 9⟩)))) :=
  (get_proxy_after_wait_resolved ⟨"com.redhat.RHSM1", "rhsm.service", 9⟩ 2
    [ObsLabel.enter 0, ObsLabel.expire, ObsLabel.check 0]
    { proxy := none, timerExists := true, timerExpired := true, timerCancelled := false,
      connected := true, activated := false, startCount := 1,
      callers := [ObsCallerPhase.done (ObsCallResult.unavailable
          (obsErrMsg ⟨"com.redhat.RHSM1", "rhsm.service", 9⟩)),
        ObsCallerPhase.idle] }
    1 (by decide) rfl (by decide)).2.1 rfl

/-! ## Theorem: claim C1 — what concurrent callers get -/

theorem obsStep_activated_mono {cfg : ObsConfig} {s s1 : ObsState} {l : ObsLabel}
    (hstep : obsStep cfg s l = some s1) (ha : s.activated = true) : s1.activated = true := by
  cases l with
  | enter i =>
    simp only [obsStep] at hstep
    cases hget : s.callers.get? i with
    | none => rw [hget] at hstep; exact absurd hstep (by simp)
    | some c =>
      rw [hget] at hstep
      cases c with
      | waiting => exact absurd hstep (by simp)
      | done r => exact absurd hstep (by simp)
      | idle =>
        cases hp : s.proxy with
        | some p =>
          rw [hp] at hstep
          simp only [Option.some.injEq] at hstep
          rw [← hstep]
          exact ha
        | none =>
          rw [hp] at hstep
          by_cases ht : s.timerExists
          · rw [if_pos ht] at hstep
            simp only [Option.some.injEq] at hstep
            rw [← hstep]
            exact ha
          · rw [if_neg ht] at hstep
            simp only [Option.some.injEq] at hstep
            rw [← hstep]
            exact ha
  | expire =>
    simp only [obsStep] at hstep
    by_cases hcond : s.timerExists && !s.timerCancelled && !s.timerExpired
    · rw [if_pos hcond] at hstep
      simp only [Option.some.injEq] at hstep
      rw [← hstep]
      exact ha
    · rw [if_neg hcond] at hstep
      exact absurd hstep (by simp)
  | activate =>
    simp only [obsStep] at hstep
    by_cases hcond : s.connected && !s.activated
    · rw [if_pos hcond] at hstep
      simp only [Option.some.injEq] at hstep
      rw [← hstep]
    · rw [if_neg hcond] at hstep
      exact absurd hstep (by simp)
  | check i =>
    simp only [obsStep] at hstep
    cases hget : s.callers.get? i with
    | none => rw [hget] at hstep; exact absurd hstep (by simp)
    | some c =>
      rw [hget] at hstep
      cases c with
      | idle => exact absurd hstep (by simp)
      | done r => exact absurd hstep (by simp)
      | waiting =>
        by_cases hfin : s.timerFinished
        · rw [if_pos hfin] at hstep
          cases hp : s.proxy with
          | some p =>
            rw [hp] at hstep
            simp only [Option.some.injEq] at hstep
            rw [← hstep]
            exact ha
          | none =>
            rw [hp] at hstep
            simp only [Option.some.injEq] at hstep
            rw [← hstep]
            exact ha
        · rw [if_neg hfin] at hstep
          exact absurd hstep (by simp)

theorem obsRun_activated_mono {cfg : ObsConfig} {s s1 : ObsState} {tr : List ObsLabel}
    (hrun : obsRun cfg s tr = some s1) (ha : s.activated = true) : s1.activated = true := by
  induction tr generalizing s with
  | nil =>
    simp only [obsRun, Option.some.injEq] at hrun
    exact hrun ▸ ha
  | cons l rest ih =>
    rw [obsRun] at hrun
    cases h : obsStep cfg s l with
    | none => rw [h] at hrun; exact absurd hrun (by simp)
    | some s2 =>
      rw [h] at hrun
      exact ih hrun (obsStep_activated_mono h ha)

theorem obsStep_no_activation {cfg : ObsConfig} {s s1 : ObsState} {l : ObsLabel}
    (hstep : obsStep cfg s l = some s1) (hl : l ≠ ObsLabel.activate)
    (hinv : ObsNoActivation cfg s) : ObsNoActivation cfg s1 := by
  obtain ⟨ha, hpx, hres⟩ := hinv
  cases l with
  | activate => exact absurd rfl hl
  | enter i =>
    simp only [obsStep] at hstep
    cases hget : s.callers.get? i with
    | none => rw [hget] at hstep; exact absurd hstep (by simp)
    | some c =>
      rw [hget] at hstep
      cases c with
      | waiting => exact absurd hstep (by simp)
      | done r => exact absurd hstep (by simp)
      | idle =>
        rw [hpx] at hstep
        by_cases ht : s.timerExists
        · rw [if_pos ht] at hstep
          simp only [Option.some.injEq] at hstep
          rw [← hstep]
          refine ⟨ha, hpx, ?_⟩
          intro r hr
          rcases List.mem_or_eq_of_mem_set hr with hmem | heq
          · exact hres r hmem
          · exact absurd heq (by simp)
        · rw [if_neg ht] at hstep
          simp only [Option.some.injEq] at hstep
          rw [← hstep]
          refine ⟨ha, hpx, ?_⟩
          intro r hr
          rcases List.mem_or_eq_of_mem_set hr with hmem | heq
          · exact hres r hmem
          · exact absurd heq (by simp)
  | expire =>
    simp only [obsStep] at hstep
    by_cases hcond : s.timerExists && !s.timerCancelled && !s.timerExpired
    · rw [if_pos hcond] at hstep
      simp only [Option.some.injEq] at hstep
      rw [← hstep]
      exact ⟨ha, hpx, hres⟩
    · rw [if_neg hcond] at hstep
      exact absurd hstep (by simp)
  | check i =>
    simp only [obsStep] at hstep
    cases hget : s.callers.get? i with
    | none => rw [hget] at hstep; exact absurd hstep (by simp)
    | some c =>
      rw [hget] at hstep
      cases c with
      | idle => exact absurd hstep (by simp)
      | done r => exact absurd hstep (by simp)
      | waiting =>
        by_cases hfin : s.timerFinished
        · rw [if_pos hfin, hpx] at hstep
          simp only [Option.some.injEq] at hstep
          rw [← hstep]
          refine ⟨ha, hpx, ?_⟩
          intro r hr
          rcases List.mem_or_eq_of_mem_set hr with hmem | heq
          · exact hres r hmem
          · simp only [ObsCallerPhase.done.injEq] at heq
            exact heq
        · rw [if_neg hfin] at hstep
          exact absurd hstep (by simp)

theorem obsRun_no_activation {cfg : ObsConfig} {s s1 : ObsState} {tr : List ObsLabel}
    (hrun : obsRun cfg s tr = some s1) (hna : ObsLabel.activate ∉ tr)
    (hinv : ObsNoActivation cfg s) : ObsNoActivation cfg s1 := by
  induction tr generalizing s with
  | nil =>
    simp only [obsRun, Option.some.injEq] at hrun
    exact hrun ▸ hinv
  | cons l rest ih =>
    have hl : l ≠ ObsLabel.activate := by
      intro he
      exact hna (he ▸ List.mem_cons_self l rest)
    have hrest : ObsLabel.activate ∉ rest := fun hm => hna (List.mem_cons_of_mem l hm)
    rw [obsRun] at hrun
    cases h : obsStep cfg s l with
    | none => rw [h] at hrun; exact absurd hrun (by simp)
    | some s2 =>
      rw [h] at hrun
      exact ih hrun hrest (obsStep_no_activation h hl hinv)

theorem obsStep_pre_activation {cfg : ObsConfig} {s s1 : ObsState} {l : ObsLabel}
    (hstep : obsStep cfg s l = some s1) (hl1 : l ≠ ObsLabel.expire)
    (hl2 : l ≠ ObsLabel.activate) (hinv : ObsPreActivation s) : ObsPreActivation s1 := by
  obtain ⟨hexp, hcanc, ha, hpx, hph⟩ := hinv
  cases l with
  | activate => exact absurd rfl hl2
  | expire => exact absurd rfl hl1
  | enter i =>
    simp only [obsStep] at hstep
    cases hget : s.callers.get? i with
    | none => rw [hget] at hstep; exact absurd hstep (by simp)
    | some c =>
      rw [hget] at hstep
      cases c with
      | waiting => exact absurd hstep (by simp)
      | done r => exact absurd hstep (by simp)
      | idle =>
        rw [hpx] at hstep
        by_cases ht : s.timerExists
        · rw [if_pos ht] at hstep
          simp only [Option.some.injEq] at hstep
          rw [← hstep]
          refine ⟨hexp, hcanc, ha, hpx, ?_⟩
          intro c2 hc2
          rcases List.mem_or_eq_of_mem_set hc2 with hmem | heq
          · exact hph c2 hmem
          · exact Or.inr heq
        · rw [if_neg ht] at hstep
          simp only [Option.some.injEq] at hstep
          rw [← hstep]
          refine ⟨hexp, hcanc, ha, hpx, ?_⟩
          intro c2 hc2
          rcases List.mem_or_eq_of_mem_set hc2 with hmem | heq
          · exact hph c2 hmem
          · exact Or.inr heq
  | check i =>
    simp only [obsStep] at hstep
    cases hget : s.callers.get? i with
    | none => rw [hget] at hstep; exact absurd hstep (by simp)
    | some c =>
      rw [hget] at hstep
      cases c with
      | idle => exact absurd hstep (by simp)
      | done r => exact absurd hstep (by simp)
      | waiting =>
        have hfin : s.timerFinished = false := by
          rw [ObsState.timerFinished, hexp, hcanc]
          rfl
        rw [hfin] at hstep
        exact absurd hstep (by simp)

theorem obsRun_pre_activation {cfg : ObsConfig} {s s1 : ObsState} {tr : List ObsLabel}
    (hrun : obsRun cfg s tr = some s1) (hne : ObsLabel.expire ∉ tr)
    (hinv : ObsPreActivation s) : ObsPreActivation s1 ∨ s1.activated = true := by
  induction tr generalizing s with
  | nil =>
    simp only [obsRun, Option.some.injEq] at hrun
    exact Or.inl (hrun ▸ hinv)
  | cons l rest ih =>
    have hl1 : l ≠ ObsLabel.expire := by
      intro he
      exact hne (he ▸ List.mem_cons_self l rest)
    have hrest : ObsLabel.expire ∉ rest := fun hm => hne (List.mem_cons_of_mem l hm)
    rw [obsRun] at hrun
    cases h : obsStep cfg s l with
    | none => rw [h] at hrun; exact absurd hrun (by simp)
    | some s2 =>
      rw [h] at hrun
      by_cases hl2 : l = ObsLabel.activate
      · subst hl2
        have hact2 : s2.activated = true := by
          simp only [obsStep] at h
          by_cases hcond : s.connected && !s.activated
          · rw [if_pos hcond] at h
            simp only [Option.some.injEq] at h
            rw [← h]
          · rw [if_neg hcond] at h
            exact absurd h (by simp)
        exact Or.inr (obsRun_activated_mono hrun hact2)
      · exact ih hrun hrest (obsStep_pre_activation h hl1 hl2 hinv)

theorem obsStep_post_activation {cfg : ObsConfig} {s s1 : ObsState} {l : ObsLabel}
    (hstep : obsStep cfg s l = some s1) (hinv : ObsPostActivation cfg s) :
    ObsPostActivation cfg s1 := by
  obtain ⟨hpx, hcanc, hres⟩ := hinv
  cases l with
  | enter i =>
    simp only [obsStep] at hstep
    cases hget : s.callers.get? i with
    | none => rw [hget] at hstep; exact absurd hstep (by simp)
    | some c =>
      rw [hget] at hstep
      cases c with
      | waiting => exact absurd hstep (by simp)
      | done r => exact absurd hstep (by simp)
      | idle =>
        rw [hpx] at hstep
        simp only [Option.some.injEq] at hstep
        rw [← hstep]
        refine ⟨hpx, hcanc, ?_⟩
        intro r hr
        rcases List.mem_or_eq_of_mem_set hr with hmem | heq
        · exact hres r hmem
        · simp only [ObsCallerPhase.done.injEq] at heq
          exact heq
  | expire =>
    simp only [obsStep] at hstep
    have hcond : (s.timerExists && !s.timerCancelled && !s.timerExpired) = false := by
      rw [hcanc]
      simp
    rw [hcond] at hstep
    exact absurd hstep (by simp)
  | activate =>
    simp only [obsStep] at hstep
    by_cases hcond : s.connected && !s.activated
    · rw [if_pos hcond] at hstep
      simp only [Option.some.injEq] at hstep
      rw [← hstep]
      exact ⟨rfl, rfl, hres⟩
    · rw [if_neg hcond] at hstep
      exact absurd hstep (by simp)
  | check i =>
    simp only [obsStep] at hstep
    cases hget : s.callers.get? i with
    | none => rw [hget] at hstep; exact absurd hstep (by simp)
    | some c =>
      rw [hget] at hstep
      cases c with
      | idle => exact absurd hstep (by simp)
      | done r => exact absurd hstep (by simp)
      | waiting =>
        by_cases hfin : s.timerFinished
        · rw [if_pos hfin, hpx] at hstep
          simp only [Option.some.injEq] at hstep
          rw [← hstep]
          refine ⟨hpx, hcanc, ?_⟩
          intro r hr
          rcases List.mem_or_eq_of_mem_set hr with hmem | heq
          · exact hres r hmem
          · simp only [ObsCallerPhase.done.injEq] at heq
            exact heq
        · rw [if_neg hfin] at hstep
          exact absurd hstep (by simp)

theorem obsRun_post_activation {cfg : ObsConfig} {s s1 : ObsState} {tr : List ObsLabel}
    (hrun : obsRun cfg s tr = some s1) (hinv : ObsPostActivation cfg s) :
    ObsPostActivation cfg s1 := by
  induction tr generalizing s with
  | nil =>
    simp only [obsRun, Option.some.injEq] at hrun
    exact hrun ▸ hinv
  | cons l rest ih =>
    rw [obsRun] at hrun
    cases h : obsStep cfg s l with
    | none => rw [h] at hrun; exact absurd hrun (by simp)
    | some s2 =>
      rw [h] at hrun
      exact ih hrun (obsStep_post_activation h hinv)

/-- Claim C1, counterexample to the failure branch as stated: in this run two
callers enter, the timeout fires first (the `expire` label precedes
`activate`), caller 1 checks and raises — but the service becomes available
late, `_service_activated` still stores the proxy (nothing disconnects the
callback after the timeout), and caller 0, checking afterwards, returns the
proxy instead of raising.  So with the timeout firing first it is not true
that all calls raise. -/
theorem get_proxy_timeout_first_counterexample :
    obsRun ⟨"com.redhat.RHSM1", "rhsm.service", 7⟩ (obsInit 2)
        [ObsLabel.enter 0, ObsLabel.enter 1, ObsLabel.expire, ObsLabel.check 1,
          ObsLabel.activate, ObsLabel.check 0]
      = some { proxy := some 7, timerExists := true, timerExpired := true,
               timerCancelled := true, connected := true, activated := true, startCount := 1,
               callers := [ObsCallerPhase.done (ObsCallResult.gotProxy 7),
                 ObsCallerPhase.done (ObsCallResult.unavailable
                   (obsErrMsg ⟨"com.redhat.RHSM1", "rhsm.service", 7⟩))] } := by
  decide

/-- Claim C1 (amended): if the service-available callback fires before the
timeout expires — the activation happens after a prefix with no timer expiry
— then every completed `get_proxy` call returned the single proxy instance
the callback stored, and every still-waiting caller can complete at once; and
if the callback never fires, every completed call raised the
`DBusObserverError`.  When the timeout fires first but the callback fires
later, calls checked before the callback raise while calls checked after it
return the stored proxy (see the counterexample). -/
theorem get_proxy_activation_vs_timeout :
    (∀ (cfg : ObsConfig) (n : Nat) (t1 t2 : List ObsLabel) (s : ObsState),
        obsRun cfg (obsInit n) (t1 ++ ObsLabel.activate :: t2) = some s →
        ObsLabel.expire ∉ t1 →
          (∀ i r, s.callers.get? i = some (ObsCallerPhase.done r) →
            r = ObsCallResult.gotProxy cfg.busProxy)
          ∧ (∀ i, s.callers.get? i = some ObsCallerPhase.waiting →
              ∃ sX, obsStep cfg s (ObsLabel.check i) = some sX))
    ∧ (∀ (cfg : ObsConfig) (n : Nat) (tr : List ObsLabel) (s : ObsState),
        obsRun cfg (obsInit n) tr = some s →
        ObsLabel.activate ∉ tr →
          ∀ i r, s.callers.get? i = some (ObsCallerPhase.done r) →
            r = ObsCallResult.unavailable (obsErrMsg cfg)) := by
  constructor
  · intro cfg n t1 t2 s hrun hne
    rw [obsRun_append] at hrun
    cases h1 : obsRun cfg (obsInit n) t1 with
    | none => rw [h1] at hrun; exact absurd hrun (by simp)
    | some s1 =>
      rw [h1] at hrun
      have hrun2 : obsRun cfg s1 (ObsLabel.activate :: t2) = some s := hrun
      rw [obsRun] at hrun2
      cases h2 : obsStep cfg s1 ObsLabel.activate with
      | none => rw [h2] at hrun2; exact absurd hrun2 (by simp)
      | some s2 =>
        rw [h2] at hrun2
        have hs1a : s1.activated = false := by
          simp only [obsStep] at h2
          by_cases hcond : s1.connected && !s1.activated
          · simp only [Bool.and_eq_true, Bool.not_eq_true'] at hcond
            exact hcond.2
          · rw [if_neg hcond] at h2
            exact absurd h2 (by simp)
        have hpre0 : ObsPreActivation (obsInit n) :=
          ⟨rfl, rfl, rfl, rfl, fun c hc => Or.inl (List.eq_of_mem_replicate hc)⟩
        have hpre1 : ObsPreActivation s1 := by
          rcases obsRun_pre_activation h1 hne hpre0 with hp | hact
          · exact hp
          · rw [hact] at hs1a
            exact absurd hs1a (by simp)
        have hpost2 : ObsPostActivation cfg s2 := by
          simp only [obsStep] at h2
          by_cases hcond : s1.connected && !s1.activated
          · rw [if_pos hcond] at h2
            simp only [Option.some.injEq] at h2
            rw [← h2]
            refine ⟨rfl, rfl, ?_⟩
            intro r hr
            rcases hpre1.2.2.2.2 _ hr with h | h <;> exact absurd h (by simp)
          · rw [if_neg hcond] at h2
            exact absurd h2 (by simp)
        have hpost : ObsPostActivation cfg s := obsRun_post_activation hrun2 hpost2
        constructor
        · intro i r hres
          exact hpost.2.2 r (List.get?_mem hres)
        · intro i hw
          refine ⟨s.setCaller i (ObsCallerPhase.done (ObsCallResult.gotProxy cfg.busProxy)),
            ?_⟩
          rw [obsStep_check_waiting cfg s i hw]
          have hfin : s.timerFinished = true := by
            rw [ObsState.timerFinished, hpost.2.1]
            simp
          rw [if_pos hfin, hpost.1]
  · intro cfg n tr s hrun hna i r hres
    have hinit : ObsNoActivation cfg (obsInit n) := by
      refine ⟨rfl, rfl, ?_⟩
      intro r2 hr2
      exact absurd (List.eq_of_mem_replicate hr2) (by simp)
    exact (obsRun_no_activation hrun hna hinit).2.2 r (List.get?_mem hres)

theorem get_proxy_activation_vs_timeout_witness :
    ∃ sX, obsStep ⟨"com.redhat.RHSM1", "rhsm.service", 5⟩
        { proxy := some 5, timerExists := true, timerExpired := false, timerCancelled := true,
          connected := true, activated := true, startCount := 1,
          callers := [ObsCallerPhase.waiting] }
        (ObsLabel.check 0) = some sX :=
  (get_proxy_activation_vs_timeout.1 ⟨"com.redhat.RHSM1", "rhsm.service", 5⟩ 1
    [ObsLabel.enter 0] []
    { proxy := some 5, timerExists := true, timerExpired := false, timerCancelled := true,
      connected := true, activated := true, startCount := 1,
      callers := [ObsCallerPhase.waiting] }
    (by decide) (by decide)).2 0 (by decide)
